import Mathlib

/-!
Verification development for the DUNE Plan Engine task
(src/unnamed/part_001, `Plan::Engine::Task`).

The task is shallowly embedded as a pure state machine: the C++ member
state becomes the record `EngineState`, every `consume` handler and one
iteration of `onMain` become functions `EngineState → EngineState × List Output`,
and every message dispatched on the bus is recorded in the output list.

Modelling conventions:
- Times (`Clock::get()` values, deadlines) are exact integers in units of
  half seconds, so the source constants `c_vc_reply_timeout = 2.5` and
  `c_vs_timeout = 2.5` are the integer 5.  This is a pure change of unit:
  comparisons are preserved.  Continuous quantities that the engine only
  copies (latitude, progress, radius, RPM) are likewise integers.
- The 16-bit request counter `m_vreq_ctr` and the 32-bit `m_plan_ref` are
  naturals reduced modulo 2^16 / 2^32 at each increment.
- Console logging (`inf`/`war`/`err`/`debug`/`spew`) is not modelled; the
  `print` parameters of `answer`/`changeMode` only control logging and are
  dropped.
- The sources of the subcomponents `Plan` (Plan.hpp), `DataBaseInteraction`
  (DataBaseInteraction.hpp) and `MementoHandler` (MementoHandler.hpp) are
  not under src/.  Calls into `Plan` and the database are modelled by an
  `Oracle` record supplying their results, and theorems quantify over all
  oracles; mutating `Plan` calls are recorded as an event trace.  The
  memento handler, which claim C9 depends on, is modelled from the spec.
-/

namespace PlanEngine

/-- Externally published plan control state (IMC::PlanControlState state enum). -/
inductive PCSState
| blocked
| ready
| initializing
| executing
deriving DecidableEq, Repr

/-- Last plan outcome (IMC::PlanControlState LPO_NONE / LPO_SUCCESS / LPO_FAILURE). -/
inductive Outcome
| lpoNone
| lpoSuccess
| lpoFailure
deriving DecidableEq, Repr

/-- PlanControl message type (PC_REQUEST / PC_SUCCESS / PC_FAILURE / PC_IN_PROGRESS). -/
inductive PCType
| pcRequest
| pcSuccess
| pcFailure
| pcInProgress
deriving DecidableEq, Repr

/-- PlanControl operation (PC_START / PC_STOP / PC_LOAD / PC_GET; `opOther`
stands for any of the values hitting the `default` branch of `processRequest`). -/
inductive PCOp
| opStart
| opStop
| opLoad
| opGet
| opOther
deriving DecidableEq, Repr

/-- VehicleCommand message type (VC_REQUEST / VC_SUCCESS / VC_FAILURE / VC_IN_PROGRESS). -/
inductive VCType
| vcRequest
| vcSuccess
| vcFailure
| vcInProgress
deriving DecidableEq, Repr

/-- VehicleCommand command enum. -/
inductive VCCommand
| execManeuver
| stopManeuver
| startCalibrationCmd
| stopCalibrationCmd
deriving DecidableEq, Repr

/-- A maneuver payload.  Only the fields the engine reads or writes are kept:
the IMC numeric id (`getId()`), the message name (`getName()`), the `plan_ref`
and `memento` fields written by `startManeuver` / `handleArgMemento`, and the
station-keeping / idle parameters written by `startCalibration`. -/
structure Maneuver where
  imcId : Nat
  name : String
  plan_ref : Nat
  memento : String
  lat : Int
  lon : Int
  radius : Int
  speed : Int
  duration : Nat
deriving DecidableEq, Repr

/-- A named maneuver of a plan specification (IMC::PlanManeuver). -/
structure PlanManeuver where
  maneuver_id : String
  data : Option Maneuver
deriving DecidableEq, Repr

/-- A directed transition of a plan specification (IMC::PlanTransition). -/
structure PlanTransition where
  source_man : String
  dest_man : String
  conditions : String
deriving DecidableEq, Repr

/-- IMC::PlanSpecification.  `source_entity` is the header field written by
`setSourceEntity`. -/
structure PlanSpecification where
  plan_id : String
  description : String
  vnamespace : String
  start_man_id : String
  maneuvers : List PlanManeuver
  transitions : List PlanTransition
  source_entity : Nat
deriving DecidableEq, Repr

/-- The cleared plan specification (`m_spec.clear()`). -/
def emptySpec : PlanSpecification :=
  { plan_id := "", description := "", vnamespace := "", start_man_id := ""
    maneuvers := [], transitions := [], source_entity := 0 }

/-- IMC::PlanMemento. -/
structure PlanMemento where
  id : String
  plan_id : String
  maneuver_id : String
  memento : String
deriving DecidableEq, Repr

/-- IMC::Memento, the raw per-maneuver resume message from the vehicle. -/
structure Memento where
  id : String
  plan_ref : Nat
  man_id : String
  payload : String
deriving DecidableEq, Repr

/-- Derived plan statistics (IMC::PlanStatistics); produced by `Plan::parse`,
whose source is not under src/, so the content is opaque key-value text. -/
structure PlanStatistics where
  props : List (String × String)
deriving DecidableEq, Repr

/-- Argument of an incoming PlanControl request: a plan specification, a plan
memento, or a bare maneuver (quick plan). -/
inductive PCArg
| spec (sp : PlanSpecification)
| memento (pm : PlanMemento)
| man (m : Maneuver)
deriving DecidableEq, Repr

/-- Argument of an outgoing PlanControl reply: statistics (load) or the
current specification (get). -/
inductive ReplyArg
| stats (ps : PlanStatistics)
| spec (sp : PlanSpecification)
deriving DecidableEq, Repr

/-- An incoming IMC::PlanControl request.  `src`/`src_ent` are the header
source fields used to address the reply. -/
structure PlanControl where
  type : PCType
  op : PCOp
  request_id : Nat
  plan_id : String
  flags : Nat
  arg : Option PCArg
  src : Nat
  src_ent : Nat
deriving DecidableEq, Repr

/-- The engine's PlanControl reply message `m_reply` (a persistent field). -/
structure PlanControlReply where
  dest : Nat
  dest_ent : Nat
  request_id : Nat
  op : PCOp
  plan_id : String
  type : PCType
  info : String
  arg : Option ReplyArg
deriving DecidableEq, Repr

/-- IMC::VehicleCommand; covers both the engine's request `m_vc` and incoming
replies (`dest`, `dest_ent`, `info` are only read on replies). -/
structure VehicleCommand where
  type : VCType
  request_id : Nat
  command : VCCommand
  maneuver : Option Maneuver
  calib_time : Nat
  info : String
  dest : Nat
  dest_ent : Nat
deriving DecidableEq, Repr

/-- The published IMC::PlanControlState message `m_pcs`. -/
structure PCSMsg where
  state : PCSState
  plan_id : String
  man_id : String
  man_type : Nat
  plan_progress : Int
  plan_eta : Int
  last_outcome : Outcome
  man_eta : Nat
  timestamp : Int
deriving DecidableEq, Repr

/-- Vehicle operation mode (IMC::VehicleState op_mode). -/
inductive OpMode
| service
| calibration
| opError
| maneuver
| external
| opBoot
deriving DecidableEq, Repr

/-- IMC::VehicleState; `flags` bit 0 is VFLG_MANEUVER_DONE. -/
structure VehicleState where
  op_mode : OpMode
  flags : Nat
  last_error : String
  last_error_time : Int
  error_ents : String
  maneuver_eta : Nat
deriving DecidableEq, Repr

/-- IMC::EstimatedState; only the source system and the position the engine
copies for the station-keeping calibration filler are kept. -/
structure EstimatedState where
  src : Nat
  lat : Int
  lon : Int
deriving DecidableEq, Repr

/-- IMC::ManeuverControlState state enum. -/
inductive MCSKind
| executing
| done
| mcsError
| stopped
deriving DecidableEq, Repr

/-- IMC::ManeuverControlState. -/
structure MCSMsg where
  state : MCSKind
deriving DecidableEq, Repr

/-- IMC::EntityActivationState state (only equality with EAS_ACTIVE matters). -/
inductive EASKind
| active
| inactive
| failed
deriving DecidableEq, Repr

/-- IMC::EntityActivationState. -/
structure EntityActivationState where
  src_ent : Nat
  state : EASKind
  error : String
deriving DecidableEq, Repr

/-- IMC::EntityInfo (keyed by label in `m_cinfo`). -/
structure EntityInfo where
  label : String
  src_ent : Nat
deriving DecidableEq, Repr

/-- IMC::PowerOperation op enum (the handled values). -/
inductive POPKind
| pwrDown
| pwrDownIP
| pwrDownAborted
deriving DecidableEq, Repr

/-- IMC::PowerOperation. -/
structure PowerOperation where
  dest : Nat
  op : POPKind
deriving DecidableEq, Repr

/-- Entity state kind reported to the task supervisor (ESTA_*). -/
inductive EStaKind
| boot
| normal
| esError
deriving DecidableEq, Repr

/-- Entity status code (Status::CODE_*). -/
inductive ECode
| init
| active
| dbError
| powerDown
deriving DecidableEq, Repr

/-- The task's entity state (`setEntityState` / `getEntityState`). -/
structure ESta where
  esta : EStaKind
  code : ECode
deriving DecidableEq, Repr

/-- Mutating calls the engine makes into the `Plan` object; Plan.hpp is not
under src/, so the model records the call trace instead of plan internals. -/
inductive PlanEvent
| parsed
| cleared
| maneuverDone
| maneuverStarted (id : String)
| planStarted
| planStopped
| calibrationStarted
| updateCalibration
| fuelLevel
| entityActivation (id : String)
deriving DecidableEq, Repr

/-- The engine's `m_plan` object, abstracted to its event trace. -/
structure PlanModel where
  events : List PlanEvent
deriving DecidableEq, Repr

/-- Record one mutating call on the plan object. -/
def PlanModel.push (p : PlanModel) (e : PlanEvent) : PlanModel :=
  { events := p.events ++ [e] }

/-- Task configuration (`Arguments`); the state-report period is replaced by
a boolean `reportDue` parameter of the main-loop step. -/
structure Arguments where
  progress : Bool
  fpredict : Bool
  calibration_time : Nat
  do_calib : Bool
  actfail_abort : Bool
  sk_calib : Bool
  sk_radius : Int
  sk_rpm : Int
  label_imu : String
deriving DecidableEq, Repr

/-- The full member state of `Plan::Engine::Task`.  `sysId`/`entId` are the
constant results of `getSystemId()`/`getEntityId()`. -/
structure EngineState where
  sysId : Nat
  entId : Nat
  args : Arguments
  pcs : PCSMsg
  reply : PlanControlReply
  last_event : String
  vreq_ctr : Nat
  vc_reply_deadline : Int
  last_vstate : Int
  vc : VehicleCommand
  spec : PlanSpecification
  supported : List Nat
  state_es : EstimatedState
  mcs : MCSMsg
  cinfo : List (String × EntityInfo)
  eid_imu : Nat
  imu_enabled : Bool
  requests : List PlanControl
  plan_ref : Nat
  mh : List (Nat × PlanSpecification)
  plan : PlanModel
  esta : ESta
  lc_name : String
deriving DecidableEq, Repr

/-- Results of the engine's calls into the subcomponents whose sources are
not under src/ (`Plan`, `DataBaseInteraction`).  Theorems quantify over all
oracles, so they hold whatever those components answer. -/
structure Oracle where
  searchPlan : String → Option PlanSpecification
  searchMemento : String → Option PlanMemento
  searchInfo : String
  parseError : Option String
  stats : PlanStatistics
  loadStart : Option PlanManeuver
  loadNext : Option PlanManeuver
  isDone : Bool
  isCalibrationDone : Bool
  hasCalibrationFailed : Bool
  calibrationInfo : String
  currentId : String
  estCalibTime : Nat
  entityActOk : Bool
  resolve : Nat → Option String
  onPlanDBOk : Bool
  dbOpenOk : Bool
  progressVal : Int
  etaVal : Int

/-- Kind tag of a record sent to the plan database (IMC::PlanDB DBDT_*). -/
inductive DBKind
| dbPlan
| dbMemento
deriving DecidableEq, Repr

/-- Payload of a record sent to the plan database. -/
inductive DBPayload
| plan (sp : PlanSpecification)
| pmem (pm : PlanMemento)
| rawMemento (m : Memento)
deriving DecidableEq, Repr

/-- A message dispatched on the bus by the engine during one step. -/
inductive Output
| vcOut (v : VehicleCommand)
| replyOut (r : PlanControlReply)
| pcsOut (p : PCSMsg)
| lcOut (name : String)
| specOut (sp : PlanSpecification)
| dbOut (k : DBKind) (id : String) (p : DBPayload)
deriving DecidableEq, Repr

/-- Timeout for the vehicle command reply: 2.5 s = 5 half-second ticks. -/
def c_vc_reply_timeout : Int := 5

/-- Timeout for the vehicle state: 2.5 s = 5 half-second ticks. -/
def c_vs_timeout : Int := 5

/-- `Task::pendingReply`: a vehicle command reply is pending while the
deadline is non-negative. -/
def pendingReply (s : EngineState) : Prop := 0 ≤ s.vc_reply_deadline

instance (s : EngineState) : Decidable (pendingReply s) :=
  inferInstanceAs (Decidable (0 ≤ s.vc_reply_deadline))

/-- `Task::answer`: fill `m_reply.type`/`m_reply.info` and dispatch it. -/
def answer (ty : PCType) (desc : String) (s : EngineState) :
    EngineState × List Output :=
  let r := { s.reply with type := ty, info := desc }
  ({ s with reply := r }, [Output.replyOut r])

/-- `Task::onFailure`: mark the published state as failed and reply PC_FAILURE. -/
def onFailure (errmsg : String) (s : EngineState) : EngineState × List Output :=
  answer PCType.pcFailure errmsg
    { s with pcs := { s.pcs with last_outcome := Outcome.lpoFailure,
                                 plan_progress := -1, plan_eta := 0 } }

/-- `Task::onSuccess`: reset progress fields and reply PC_SUCCESS. -/
def onSuccess (msg : String) (s : EngineState) : EngineState × List Output :=
  answer PCType.pcSuccess msg
    { s with pcs := { s.pcs with plan_progress := -1, plan_eta := 0 } }

/-- `Task::changeLog`: request a new log with the given name. -/
def changeLog (name : String) (s : EngineState) : EngineState × List Output :=
  ({ s with lc_name := name }, [Output.lcOut name])

/-- `Task::changeMode` (4-argument form): update the published state, stop
the plan object and close the log when leaving INITIALIZING/EXECUTING, set
the maneuver fields, stamp and dispatch `m_pcs`. -/
def changeMode (now : Int) (st : PCSState) (event_desc : String) (nid : String)
    (man : Option Maneuver) (s : EngineState) : EngineState × List Output :=
  let s := { s with last_event := event_desc }
  let so :=
    if st = s.pcs.state then (s, ([] : List Output))
    else
      let was := s.pcs.state = PCSState.initializing ∨ s.pcs.state = PCSState.executing
      let s := { s with pcs := { s.pcs with state := st } }
      if was ∧ ¬(st = PCSState.initializing ∨ st = PCSState.executing) then
        ({ s with plan := s.plan.push PlanEvent.planStopped, lc_name := "" },
         [Output.lcOut ""])
      else (s, [])
  let s := so.1
  let s :=
    match man with
    | some m => { s with pcs := { s.pcs with man_id := nid, man_type := m.imcId } }
    | none => { s with pcs := { s.pcs with man_id := "", man_type := 65535 } }
  let s := { s with pcs := { s.pcs with timestamp := now } }
  (s, so.2 ++ [Output.pcsOut s.pcs])

/-- `Task::vehicleRequest`: assign a fresh 16-bit request id, build and
dispatch the VehicleCommand, set the reply deadline. -/
def vehicleRequest (now : Int) (o : Oracle) (cmd : VCCommand)
    (arg : Option Maneuver) (s : EngineState) : EngineState × List Output :=
  let ctr := (s.vreq_ctr + 1) % 65536
  let vc0 := { s.vc with type := VCType.vcRequest, request_id := ctr, command := cmd }
  let vc0 :=
    match arg with
    | some m => { vc0 with maneuver := some m }
    | none => vc0
  let sp :=
    if cmd = VCCommand.startCalibrationCmd then
      ({ s with plan := s.plan.push PlanEvent.calibrationStarted },
       { vc0 with calib_time := o.estCalibTime })
    else (s, { vc0 with calib_time := 0 })
  let s := sp.1
  let dispatched := sp.2
  let vc1 := if arg.isSome then { dispatched with maneuver := none } else dispatched
  ({ s with vreq_ctr := ctr, vc := vc1,
            vc_reply_deadline := now + c_vc_reply_timeout },
   [Output.vcOut dispatched])

/-- `Task::startManeuver`: dispatch EXEC_MANEUVER for the given plan maneuver
(after stamping `plan_ref` into its payload) and publish EXECUTING, or fall
back to READY when the maneuver is missing. -/
def startManeuver (now : Int) (o : Oracle) (pman : Option PlanManeuver)
    (s : EngineState) : EngineState × List Output :=
  match pman with
  | none =>
      changeMode now PCSState.ready (o.currentId ++ ": invalid maneuver ID") "" none s
  | some pm =>
      let man := pm.data.map (fun m => { m with plan_ref := s.plan_ref })
      let so1 := vehicleRequest now o VCCommand.execManeuver man s
      let so2 := changeMode now PCSState.executing
        (pm.maneuver_id ++ ": executing maneuver") pm.maneuver_id man so1.1
      ({ so2.1 with plan := so2.1.plan.push (PlanEvent.maneuverStarted pm.maneuver_id) },
       so1.2 ++ so2.2)

/-- `Task::handleArgSpecification`: copy the given plan into `m_spec`, stamp
the engine's entity id, and store it in the plan database. -/
def handleArgSpecification (sp : PlanSpecification) (s : EngineState) :
    EngineState × List Output × Bool × String :=
  let sp := { sp with source_entity := s.entId }
  ({ s with spec := sp },
   [Output.dbOut DBKind.dbPlan sp.plan_id (DBPayload.plan sp)], true, "")

/-- Result of the resume-maneuver loop of `Task::handleArgMemento`. -/
inductive InjectResult
| notFound
| noData
| injected (ms : List PlanManeuver)
deriving DecidableEq, Repr

/-- The maneuver loop of `Task::handleArgMemento`: find the first maneuver
with the memento's maneuver id and inject the memento bytes into its payload. -/
def injectMemento (pm : PlanMemento) : List PlanManeuver → InjectResult
| [] => InjectResult.notFound
| q :: rest =>
    if q.maneuver_id = pm.maneuver_id then
      match q.data with
      | none => InjectResult.noData
      | some d => InjectResult.injected
          ({ q with data := some { d with memento := pm.memento } } :: rest)
    else
      match injectMemento pm rest with
      | InjectResult.injected rest2 => InjectResult.injected (q :: rest2)
      | r => r

/-- `Task::handleArgMemento`: look the memento's plan up in the database,
redirect `start_man_id`, inject the memento bytes, persist the memento. -/
def handleArgMemento (o : Oracle) (pm : PlanMemento) (s : EngineState) :
    EngineState × List Output × Bool × String :=
  let s := { s with spec := emptySpec }
  match o.searchPlan pm.plan_id with
  | none =>
      let so := onFailure o.searchInfo s
      (so.1, so.2, false, o.searchInfo)
  | some found =>
      let sp := { found with source_entity := s.entId, start_man_id := pm.maneuver_id }
      match injectMemento pm sp.maneuvers with
      | InjectResult.notFound =>
          ({ s with spec := sp }, [], false,
           "could not find resume maneuver: " ++ pm.maneuver_id)
      | InjectResult.noData =>
          ({ s with spec := sp }, [], false,
           pm.maneuver_id ++ "actual maneuver not specified")
      | InjectResult.injected ms =>
          ({ s with spec := { sp with maneuvers := ms } },
           [Output.dbOut DBKind.dbMemento pm.id (DBPayload.pmem pm)], true, "")

/-- `Task::handleQuickPlan`: wrap a bare maneuver into a one-maneuver plan
named after the request's plan id and store it. -/
def handleQuickPlan (id : String) (m : Maneuver) (s : EngineState) :
    EngineState × List Output × Bool × String :=
  let spec_man : PlanManeuver := { maneuver_id := m.name, data := some m }
  let sp := { emptySpec with plan_id := id, start_man_id := m.name,
                             maneuvers := [spec_man] }
  ({ s with spec := sp },
   [Output.dbOut DBKind.dbPlan sp.plan_id (DBPayload.plan sp)], true, "")

/-- `Task::parseArg`: resolve the request argument into `m_spec` (explicit
specification, memento, quick plan, or database lookup by id with a memento
fallback). -/
def parseArg (o : Oracle) (id : String) (arg : Option PCArg) (s : EngineState) :
    EngineState × List Output × Bool × String :=
  match arg with
  | some (PCArg.spec sp) => handleArgSpecification sp s
  | some (PCArg.memento pm) => handleArgMemento o pm s
  | some (PCArg.man m) => handleQuickPlan id m s
  | none =>
      let s := { s with spec := emptySpec }
      match o.searchPlan id with
      | some found => ({ s with spec := found }, [], true, "")
      | none =>
          match o.searchMemento id with
          | some pmem => handleArgMemento o pmem s
          | none =>
              let so := onFailure o.searchInfo s
              (so.1, so.2, false, o.searchInfo)

/-- `Task::parsePlan`: run `Plan::parse`; on a parse error reply PC_FAILURE
and clear the plan; clear the plan as well when no plan start follows. -/
def parsePlan (o : Oracle) (plan_startup : Bool) (s : EngineState) :
    EngineState × List Output × Bool :=
  match o.parseError with
  | some e =>
      let s := { s with plan := s.plan.push PlanEvent.parsed }
      let so := onFailure e s
      ({ so.1 with plan := so.1.plan.push PlanEvent.cleared }, so.2, false)
  | none =>
      let s := { s with plan := s.plan.push PlanEvent.parsed }
      if plan_startup then (s, [], true)
      else ({ s with plan := s.plan.push PlanEvent.cleared }, [], true)

/-- `Task::loadPlan`: refuse while a plan is being run, resolve the argument,
parse, and reply with the plan statistics on success. -/
def loadPlan (now : Int) (o : Oracle) (plan_id : String) (arg : Option PCArg)
    (plan_startup : Bool) (s : EngineState) : EngineState × List Output × Bool :=
  if (s.pcs.state = PCSState.initializing ∧ ¬plan_startup) ∨
      s.pcs.state = PCSState.executing then
    let so := onFailure "cannot load plan now" s
    (so.1, so.2, false)
  else
    let pa := parseArg o plan_id arg s
    let s := pa.1
    if ¬pa.2.2.1 then
      let so := changeMode now PCSState.ready ("plan load failed: " ++ pa.2.2.2) "" none s
      (so.1, pa.2.1 ++ so.2, false)
    else
      let pp := parsePlan o plan_startup s
      let s := pp.1
      if ¬pp.2.2 then
        let so := changeMode now PCSState.ready
          ("plan parse failed: " ++ s.reply.info) "" none s
        (so.1, pa.2.1 ++ pp.2.1 ++ so.2, false)
      else
        let s := { s with
          reply := { s.reply with arg := some (ReplyArg.stats o.stats),
                                  plan_id := s.spec.plan_id },
          pcs := { s.pcs with plan_id := s.spec.plan_id } }
        let so := onSuccess "plan loaded" s
        (so.1, pa.2.1 ++ pp.2.1 ++ so.2, true)

/-- `Task::getPlan`: reply with the current specification, or PC_FAILURE when
no plan is being run. -/
def getPlan (s : EngineState) : EngineState × List Output :=
  if ¬(s.pcs.state = PCSState.initializing) ∧ ¬(s.pcs.state = PCSState.executing) then
    onFailure "no plan is running" s
  else
    let s := { s with reply := { s.reply with arg := some (ReplyArg.spec s.spec),
                                              plan_id := s.spec.plan_id } }
    onSuccess "OK" s

/-- `Task::stopPlan`: stop a running plan (dispatching STOP_MANEUVER unless a
new plan starts right after), or reply that no plan is running. -/
def stopPlan (now : Int) (o : Oracle) (plan_startup : Bool) (s : EngineState) :
    EngineState × List Output × Bool :=
  if s.pcs.state = PCSState.initializing ∨ s.pcs.state = PCSState.executing then
    if ¬plan_startup then
      let so1 := vehicleRequest now o VCCommand.stopManeuver none s
      let s := { so1.1 with
        reply := { so1.1.reply with plan_id := so1.1.spec.plan_id },
        pcs := { so1.1.pcs with last_outcome := Outcome.lpoFailure } }
      let so2 := changeMode now PCSState.ready "plan stopped" "" none s
      (so2.1, so1.2 ++ so2.2, true)
    else
      ({ s with pcs := { s.pcs with last_outcome := Outcome.lpoFailure } }, [], false)
  else
    if ¬plan_startup then
      let so := onFailure "no plan is running, request ignored" s
      ({ so.1 with reply := { so.1.reply with plan_id := "" } }, so.2, true)
    else (s, [], true)

/-- `Task::startCalibration`: dispatch the calibration filler maneuver — a
station keeping at the position of `m_state` when configured, otherwise a
zero-duration idle maneuver. -/
def startCalibration (now : Int) (o : Oracle) (s : EngineState) :
    EngineState × List Output × Bool :=
  if s.pcs.state = PCSState.blocked then
    let so := onFailure "cannot initialize plan in BLOCKED state" s
    (so.1, so.2, false)
  else
    let m : Maneuver :=
      if s.args.sk_calib then
        { imcId := 461, name := "StationKeeping", plan_ref := 0, memento := ""
          lat := s.state_es.lat, lon := s.state_es.lon
          radius := s.args.sk_radius, speed := s.args.sk_rpm, duration := 0 }
      else
        { imcId := 454, name := "IdleManeuver", plan_ref := 0, memento := ""
          lat := 0, lon := 0, radius := 0, speed := 0, duration := 0 }
    let so := vehicleRequest now o VCCommand.execManeuver (some m) s
    (so.1, so.2, true)

/-- The bookkeeping section of `Task::startPlan` between a successful load
and the dispatch decision: start logging, flag the plan object, dispatch the
specification, bump `m_plan_ref` and register with the memento handler. -/
def startPlanBookkeeping (plan_id : String) (stopped : Bool) (s : EngineState) :
    EngineState × List Output :=
  let so2 := changeLog plan_id s
  let s := so2.1
  let s :=
    if s.pcs.state = PCSState.initializing ∨ s.pcs.state = PCSState.executing then
      let s := if ¬stopped then { s with plan := s.plan.push PlanEvent.planStopped }
               else s
      { s with plan := s.plan.push PlanEvent.planStarted }
    else s
  let oSpec := [Output.specOut s.spec]
  let s := { s with plan_ref := (s.plan_ref + 1) % 4294967296 }
  let s := { s with mh := (s.plan_ref, s.spec) :: s.mh }
  (s, so2.2 ++ oSpec)

/-- `Task::startPlan`: stop any running plan, go INITIALIZING, load, do the
bookkeeping, and either start calibration or dispatch the start maneuver. -/
def startPlan (now : Int) (o : Oracle) (plan_id : String) (arg : Option PCArg)
    (flags : Nat) (s : EngineState) : EngineState × List Output × Bool :=
  let st := stopPlan now o true s
  let stopped := st.2.2
  let so1 := changeMode now PCSState.initializing
    ("plan initializing: " ++ plan_id) "" none st.1
  let ld := loadPlan now o plan_id arg true so1.1
  if ¬ld.2.2 then
    (ld.1, st.2.1 ++ so1.2 ++ ld.2.1, stopped)
  else
    let bk := startPlanBookkeeping plan_id stopped ld.1
    let s := bk.1
    if flags &&& 1 ≠ 0 ∧ s.args.do_calib then
      let sc := startCalibration now o s
      (sc.1, st.2.1 ++ so1.2 ++ ld.2.1 ++ bk.2 ++ sc.2.1, if ¬sc.2.2 then stopped else true)
    else
      let sm := startManeuver now o o.loadStart s
      if sm.1.pcs.state = PCSState.executing then
        let so3 := onSuccess sm.1.last_event sm.1
        (so3.1, st.2.1 ++ so1.2 ++ ld.2.1 ++ bk.2 ++ sm.2 ++ so3.2, true)
      else
        let so3 := onFailure sm.1.last_event sm.1
        (so3.1, st.2.1 ++ so1.2 ++ ld.2.1 ++ bk.2 ++ sm.2 ++ so3.2, stopped)

/-- The operation dispatch of `Task::processRequest`, after the reply has
been addressed (factored out for modular reasoning). -/
def processRequestOp (now : Int) (o : Oracle) (pc : PlanControl) (s : EngineState) :
    EngineState × List Output :=
  if ¬(s.esta.esta = EStaKind.normal) then
    onFailure "engine not ready: entity state not normal" s
  else
    match pc.op with
    | PCOp.opStart =>
        let sp := startPlan now o pc.plan_id pc.arg pc.flags s
        if ¬sp.2.2 then
          let so := vehicleRequest now o VCCommand.stopManeuver none sp.1
          (so.1, sp.2.1 ++ so.2)
        else (sp.1, sp.2.1)
    | PCOp.opStop =>
        let so := stopPlan now o false s
        (so.1, so.2.1)
    | PCOp.opLoad =>
        let so := loadPlan now o pc.plan_id pc.arg false s
        (so.1, so.2.1)
    | PCOp.opGet => getPlan s
    | PCOp.opOther => onFailure "plan control operation not supported" s

/-- `Task::processRequest`: address the reply to the requester, then refuse
when the entity state is not normal or dispatch on the requested operation. -/
def processRequest (now : Int) (o : Oracle) (pc : PlanControl) (s : EngineState) :
    EngineState × List Output :=
  processRequestOp now o pc
    { s with reply := { s.reply with
        dest := pc.src, dest_ent := pc.src_ent, request_id := pc.request_id,
        op := pc.op, plan_id := pc.plan_id } }

/-- `Task::consume(IMC::PlanControl)`: enqueue while a vehicle reply is
pending; otherwise serve the front of the queue (after appending the new
request) or the request itself when the queue is empty. -/
def consumePlanControl (now : Int) (o : Oracle) (pc : PlanControl)
    (s : EngineState) : EngineState × List Output :=
  if ¬(pc.type = PCType.pcRequest) then (s, [])
  else if pendingReply s then
    ({ s with requests := s.requests ++ [pc] }, [])
  else
    match s.requests with
    | [] => processRequest now o pc s
    | r :: rest =>
        let s := { s with requests := (r :: rest) ++ [pc] }
        let so := processRequest now o r s
        ({ so.1 with requests := so.1.requests.tail }, so.2)

/-- `Task::consume(IMC::VehicleCommand)`: ignore requests, unmatched and
stale replies; a matched reply clears the deadline, and a FAILURE (except to
STOP_CALIBRATION) in INITIALIZING/EXECUTING drops the engine to READY. -/
def consumeVehicleCommand (now : Int) (vc : VehicleCommand) (s : EngineState) :
    EngineState × List Output :=
  if vc.type = VCType.vcRequest then (s, [])
  else if ¬pendingReply s then (s, [])
  else if vc.dest ≠ s.sysId ∨ vc.dest_ent ≠ s.entId ∨ s.vreq_ctr ≠ vc.request_id then
    (s, [])
  else
    let s := { s with vc_reply_deadline := -1 }
    let error := vc.type = VCType.vcFailure ∧ ¬(vc.command = VCCommand.stopCalibrationCmd)
    if s.pcs.state = PCSState.initializing ∨ s.pcs.state = PCSState.executing then
      if error then changeMode now PCSState.ready vc.info "" none s
      else (s, [])
    else (s, [])

/-- `Task::onVehicleService` (op_mode SERVICE branch of the VehicleState
handler). -/
def onVehicleService (now : Int) (o : Oracle) (vs : VehicleState)
    (s : EngineState) : EngineState × List Output :=
  match s.pcs.state with
  | PCSState.blocked => changeMode now PCSState.ready "vehicle ready" "" none s
  | PCSState.initializing =>
      if ¬pendingReply s then startManeuver now o o.loadStart s else (s, [])
  | PCSState.executing =>
      if ¬pendingReply s then
        let so1 := onFailure vs.last_error s
        let s := { so1.1 with reply := { so1.1.reply with plan_id := so1.1.spec.plan_id } }
        let so2 := changeMode now PCSState.ready vs.last_error "" none s
        (so2.1, so1.2 ++ so2.2)
      else (s, [])
  | PCSState.ready => (s, [])

/-- `Task::onVehicleManeuver` (op_mode MANEUVER branch). -/
def onVehicleManeuver (now : Int) (o : Oracle) (vs : VehicleState)
    (s : EngineState) : EngineState × List Output :=
  if ¬(s.pcs.state = PCSState.executing) ∨ pendingReply s then (s, [])
  else if vs.flags &&& 1 ≠ 0 then
    if o.isDone then
      let so1 := vehicleRequest now o VCCommand.stopManeuver none s
      let so2 := onSuccess "plan completed" so1.1
      let s := { so2.1 with
        pcs := { so2.1.pcs with last_outcome := Outcome.lpoSuccess },
        reply := { so2.1.reply with plan_id := so2.1.spec.plan_id } }
      let so3 := changeMode now PCSState.ready "plan completed" "" none s
      (so3.1, so1.2 ++ so2.2 ++ so3.2)
    else startManeuver now o o.loadNext s
  else
    ({ s with pcs := { s.pcs with man_eta := vs.maneuver_eta } }, [])

/-- The blocked-transition tail of `Task::onVehicleError` (the body of the
`edesc != m_last_event && !pendingReply()` guard), split out as a named
function for modular reasoning. -/
def onVehicleErrorBlocked (now : Int) (o : Oracle) (edesc : String)
    (s : EngineState) : EngineState × List Output :=
  let so2 :=
    if s.pcs.state = PCSState.initializing then
      let soa := onFailure edesc s
      let sob := vehicleRequest now o VCCommand.stopCalibrationCmd none soa.1
      ({ sob.1 with reply := { sob.1.reply with plan_id := sob.1.spec.plan_id } },
       soa.2 ++ sob.2)
    else (s, [])
  let so3 := changeMode now PCSState.blocked edesc "" none so2.1
  (so3.1, so2.2 ++ so3.2)

/-- The EXECUTING-mode failure reply of `Task::onVehicleError` (the body of
the `execMode()` guard), split out as a named function for modular
reasoning. -/
def onVehicleErrorReply (edesc : String) (s : EngineState) :
    EngineState × List Output :=
  if s.pcs.state = PCSState.executing then
    let so := onFailure edesc s
    ({ so.1 with reply := { so.1.reply with plan_id := so.1.spec.plan_id } }, so.2)
  else (s, [])

/-- `Task::onVehicleError` (op_mode ERROR/BOOT branch). -/
def onVehicleError (now : Int) (o : Oracle) (vs : VehicleState)
    (s : EngineState) : EngineState × List Output :=
  let edesc := if vs.last_error_time < 0 then "vehicle errors: " ++ vs.error_ents
               else vs.last_error
  let so1 := onVehicleErrorReply edesc s
  let s := so1.1
  if ¬(edesc = s.last_event) ∧ ¬pendingReply s then
    let sob := onVehicleErrorBlocked now o edesc s
    (sob.1, so1.2 ++ sob.2)
  else (s, so1.2)

/-- The calibration-driving tail of `Task::consume(IMC::VehicleState)`
(source lines guarded by `m_plan != NULL && initMode()`), split out as a
named function for modular reasoning; `consumeVehicleState` composes it
after the op_mode dispatch exactly as the source does. -/
def calibrationUpdate (now : Int) (o : Oracle) (vs : VehicleState)
    (s : EngineState) : EngineState × List Output :=
  if s.pcs.state = PCSState.initializing then
    let s := { s with plan := s.plan.push PlanEvent.updateCalibration }
    if o.isCalibrationDone then
      if vs.op_mode = OpMode.calibration ∧ ¬pendingReply s then
        startManeuver now o o.loadStart s
      else (s, [])
    else if o.hasCalibrationFailed then
      let soa := onFailure o.calibrationInfo s
      let s := { soa.1 with reply := { soa.1.reply with plan_id := soa.1.spec.plan_id } }
      let sob := changeMode now PCSState.ready o.calibrationInfo "" none s
      (sob.1, soa.2 ++ sob.2)
    else (s, [])
  else (s, [])

/-- `Task::consume(IMC::VehicleState)`: record the arrival time, dispatch on
op_mode, then drive the calibration state while INITIALIZING. -/
def consumeVehicleState (now : Int) (o : Oracle) (vs : VehicleState)
    (s : EngineState) : EngineState × List Output :=
  if s.esta.esta = EStaKind.boot then (s, [])
  else
    let s := { s with last_vstate := now }
    let so1 :=
      match vs.op_mode with
      | OpMode.service => onVehicleService now o vs s
      | OpMode.opError => onVehicleError now o vs s
      | OpMode.opBoot => onVehicleError now o vs s
      | OpMode.maneuver => onVehicleManeuver now o vs s
      | _ => (s, [])
    let so2 := calibrationUpdate now o vs so1.1
    (so2.1, so1.2 ++ so2.2)

/-- `Task::consume(IMC::EstimatedState)`: keep only own-system navigation. -/
def consumeEstimatedState (m : EstimatedState) (s : EngineState) :
    EngineState × List Output :=
  if m.src ≠ s.sysId then (s, [])
  else ({ s with state_es := m }, [])

/-- `Task::consume(IMC::ManeuverControlState)`. -/
def consumeManeuverControlState (m : MCSMsg) (s : EngineState) :
    EngineState × List Output :=
  let s := { s with mcs := m }
  if m.state = MCSKind.done then
    ({ s with plan := s.plan.push PlanEvent.maneuverDone }, [])
  else (s, [])

/-- `Task::consume(IMC::PowerOperation)`. -/
def consumePowerOperation (o : Oracle) (po : PowerOperation) (s : EngineState) :
    EngineState × List Output :=
  if po.dest ≠ s.sysId then (s, [])
  else
    match po.op with
    | POPKind.pwrDownIP =>
        ({ s with esta := { esta := EStaKind.esError, code := ECode.powerDown } }, [])
    | POPKind.pwrDownAborted =>
        if o.dbOpenOk then
          ({ s with esta := { esta := EStaKind.normal, code := ECode.active } }, [])
        else
          ({ s with esta := { esta := EStaKind.esError, code := ECode.dbError } }, [])
    | POPKind.pwrDown => (s, [])

/-- `Task::consume(IMC::RegisterManeuver)` (std::set insert). -/
def consumeRegisterManeuver (mid : Nat) (s : EngineState) :
    EngineState × List Output :=
  if mid ∈ s.supported then (s, []) else ({ s with supported := mid :: s.supported }, [])

/-- `Task::consume(IMC::EntityInfo)` (std::map insert keeps an existing key). -/
def consumeEntityInfo (ei : EntityInfo) (s : EngineState) :
    EngineState × List Output :=
  if s.cinfo.any (fun p => p.1 = ei.label) then (s, [])
  else ({ s with cinfo := (ei.label, ei) :: s.cinfo }, [])

/-- `Task::consume(IMC::PlanDB)`: pass through the database gateway; the
gateway's own PlanDB replies are internal to DataBaseInteraction (not under
src/) and are not modelled. -/
def consumePlanDB (o : Oracle) (s : EngineState) : EngineState × List Output :=
  if ¬o.onPlanDBOk then
    ({ s with esta := { esta := EStaKind.esError, code := ECode.dbError } }, [])
  else ({ s with esta := { esta := EStaKind.normal, code := ECode.active } }, [])

/-- `Task::consume(IMC::EntityActivationState)`. -/
def consumeEntityActivationState (now : Int) (o : Oracle)
    (ea : EntityActivationState) (s : EngineState) : EngineState × List Output :=
  let s :=
    if ea.src_ent = s.eid_imu then { s with imu_enabled := ea.state = EASKind.active }
    else s
  match o.resolve ea.src_ent with
  | none => (s, [])
  | some id =>
      let s := { s with plan := s.plan.push (PlanEvent.entityActivation id) }
      if o.entityActOk then (s, [])
      else
        let err := "failed to activate " ++ id ++ ": " ++ ea.error
        if s.args.actfail_abort then
          let so1 := onFailure err s
          let so2 :=
            if so1.1.pcs.state = PCSState.initializing ∧ ¬pendingReply so1.1 then
              let soa := vehicleRequest now o VCCommand.stopCalibrationCmd none so1.1
              ({ soa.1 with reply := { soa.1.reply with plan_id := soa.1.spec.plan_id } },
               soa.2)
            else (so1.1, [])
          let so3 := changeMode now PCSState.ready err "" none so2.1
          (so3.1, so1.2 ++ so2.2 ++ so3.2)
        else (s, [])

/-- `Task::consume(IMC::FuelLevel)`. -/
def consumeFuelLevel (s : EngineState) : EngineState × List Output :=
  ({ s with plan := s.plan.push PlanEvent.fuelLevel }, [])

/-- Spec-modelled memento handler map lookup.
Modelled from the spec: MementoHandler.hpp is not under src/; per spec §4.2
the handler maps a known `plan_ref` to its plan snapshot and produces a
PlanMemento naming the plan id, the active maneuver id and the opaque
payload, discarding mementos whose `plan_ref` is unknown. -/
def processMemento (mh : List (Nat × PlanSpecification)) (m : Memento) :
    Option PlanMemento :=
  match mh.find? (fun p => p.1 = m.plan_ref) with
  | none => none
  | some p => some { id := m.id, plan_id := p.2.plan_id,
                     maneuver_id := m.man_id, memento := m.payload }

/-- `Task::consume(IMC::Memento)`: drop unknown mementos; otherwise send the
raw Memento message to the plan database under the message's id (the produced
PlanMemento `pmem` is discarded by the source). -/
def consumeMemento (m : Memento) (s : EngineState) : EngineState × List Output :=
  match processMemento s.mh m with
  | none => (s, [])
  | some _ => (s, [Output.dbOut DBKind.dbMemento m.id (DBPayload.rawMemento m)])

/-- One incoming bus message, covering every `bind<T>` of the task. -/
inductive BusInput
| planControl (pc : PlanControl)
| planDB
| estimatedState (m : EstimatedState)
| maneuverControlState (m : MCSMsg)
| powerOperation (po : PowerOperation)
| registerManeuver (mid : Nat)
| vehicleCommand (vc : VehicleCommand)
| vehicleState (vs : VehicleState)
| entityInfo (ei : EntityInfo)
| entityActivationState (ea : EntityActivationState)
| fuelLevel
| memento (m : Memento)
deriving Repr

/-- Consume one bus message (dispatch over all bound handlers). -/
def consume (now : Int) (o : Oracle) (m : BusInput) (s : EngineState) :
    EngineState × List Output :=
  match m with
  | BusInput.planControl pc => consumePlanControl now o pc s
  | BusInput.planDB => consumePlanDB o s
  | BusInput.estimatedState e => consumeEstimatedState e s
  | BusInput.maneuverControlState mm => consumeManeuverControlState mm s
  | BusInput.powerOperation po => consumePowerOperation o po s
  | BusInput.registerManeuver mid => consumeRegisterManeuver mid s
  | BusInput.vehicleCommand vc => consumeVehicleCommand now vc s
  | BusInput.vehicleState vs => consumeVehicleState now o vs s
  | BusInput.entityInfo ei => consumeEntityInfo ei s
  | BusInput.entityActivationState ea => consumeEntityActivationState now o ea s
  | BusInput.fuelLevel => consumeFuelLevel s
  | BusInput.memento mm => consumeMemento mm s

/-- The periodic state report of `Task::onMain` (`m_report_timer.overflow()`
branch): refresh progress/ETA while a plan is loading or running and dispatch
`m_pcs`. -/
def mainReport (o : Oracle) (reportDue : Bool) (s : EngineState) :
    EngineState × List Output :=
  if reportDue then
    let s :=
      if s.args.progress ∧ (s.pcs.state = PCSState.executing ∨
                            s.pcs.state = PCSState.initializing) then
        { s with pcs := { s.pcs with plan_progress := o.progressVal,
                                     plan_eta := o.etaVal } }
      else s
    (s, [Output.pcsOut s.pcs])
  else (s, [])

/-- The vehicle-state silence check of `Task::onMain`: go BLOCKED when no
VehicleState has been seen for `c_vs_timeout`. -/
def mainVsTimeout (now : Int) (s : EngineState) : EngineState × List Output :=
  if s.esta.esta = EStaKind.normal ∧ now - s.last_vstate ≥ c_vs_timeout then
    let so := changeMode now PCSState.blocked "vehicle state timeout" "" none s
    ({ so.1 with last_vstate := now }, so.2)
  else (s, [])

/-- The queued-request service of `Task::onMain`: when no vehicle reply is
pending, pop and process the front of the request queue. -/
def mainServeQueue (now : Int) (o : Oracle) (s : EngineState) :
    EngineState × List Output :=
  if ¬pendingReply s then
    match s.requests with
    | [] => (s, ([] : List Output))
    | r :: _ =>
        let so := processRequest now o r s
        ({ so.1 with requests := so.1.requests.tail }, so.2)
  else (s, [])

/-- The vehicle-command reply timeout of `Task::onMain`: when the deadline has
passed, clear it, publish READY, drain the queue and bump the 16-bit counter. -/
def mainReplyTimeout (now : Int) (s : EngineState) : EngineState × List Output :=
  let delta := if s.vc_reply_deadline < 0 then 1 else s.vc_reply_deadline - now
  if delta > 0 then (s, [])
  else
    let s := { s with vc_reply_deadline := -1 }
    let so := changeMode now PCSState.ready "vehicle reply timeout" "" none s
    ({ so.1 with requests := [], vreq_ctr := (so.1.vreq_ctr + 1) % 65536 }, so.2)

/-- One iteration of the timer part of `Task::onMain` (between two
`waitForMessages` calls): periodic state report, vehicle-state timeout check,
queued-request processing, and vehicle-command reply timeout handling.
`reportDue` stands for `m_report_timer.overflow()`. -/
def onMainStep (now : Int) (o : Oracle) (reportDue : Bool) (s : EngineState) :
    EngineState × List Output :=
  let so1 := mainReport o reportDue s
  let so2 := mainVsTimeout now so1.1
  let so3 := mainServeQueue now o so2.1
  let so4 := mainReplyTimeout now so3.1
  (so4.1, so1.2 ++ so2.2 ++ so3.2 ++ so4.2)

/-- True on outputs that are a VehicleCommand of type VC_REQUEST. -/
def isVCRequest : Output → Bool
| Output.vcOut v => v.type = VCType.vcRequest
| _ => false

/-- Number of VehicleCommand requests dispatched in an output list. -/
def vcReqCount (outs : List Output) : Nat := outs.countP isVCRequest

/-- The PlanControl replies dispatched in an output list. -/
def replyOuts (outs : List Output) : List PlanControlReply :=
  outs.filterMap (fun x => match x with
    | Output.replyOut r => some r
    | _ => none)

/-- The maneuvers carried by VehicleCommands dispatched in an output list. -/
def vcManeuvers (outs : List Output) : List (Option Maneuver) :=
  outs.filterMap (fun x => match x with
    | Output.vcOut v => some v.maneuver
    | _ => none)

@[simp] lemma vcReqCount_nil : vcReqCount [] = 0 := rfl

@[simp] lemma vcReqCount_append (a b : List Output) :
    vcReqCount (a ++ b) = vcReqCount a + vcReqCount b := by
  simp [vcReqCount, List.countP_append]

@[simp] lemma vcReqCount_cons_reply (r : PlanControlReply) (l : List Output) :
    vcReqCount (Output.replyOut r :: l) = vcReqCount l := by
  simp [vcReqCount, List.countP_cons, isVCRequest]

@[simp] lemma vcReqCount_cons_pcs (p : PCSMsg) (l : List Output) :
    vcReqCount (Output.pcsOut p :: l) = vcReqCount l := by
  simp [vcReqCount, List.countP_cons, isVCRequest]

@[simp] lemma vcReqCount_cons_lc (n : String) (l : List Output) :
    vcReqCount (Output.lcOut n :: l) = vcReqCount l := by
  simp [vcReqCount, List.countP_cons, isVCRequest]

@[simp] lemma vcReqCount_cons_spec (sp : PlanSpecification) (l : List Output) :
    vcReqCount (Output.specOut sp :: l) = vcReqCount l := by
  simp [vcReqCount, List.countP_cons, isVCRequest]

@[simp] lemma vcReqCount_cons_db (k : DBKind) (i : String) (p : DBPayload)
    (l : List Output) : vcReqCount (Output.dbOut k i p :: l) = vcReqCount l := by
  simp [vcReqCount, List.countP_cons, isVCRequest]

@[simp] lemma vcReqCount_cons_vc (v : VehicleCommand) (l : List Output) :
    vcReqCount (Output.vcOut v :: l) =
      vcReqCount l + (if v.type = VCType.vcRequest then 1 else 0) := by
  simp [vcReqCount, List.countP_cons, isVCRequest]

@[simp] lemma replyOuts_nil : replyOuts [] = [] := rfl

@[simp] lemma replyOuts_append (a b : List Output) :
    replyOuts (a ++ b) = replyOuts a ++ replyOuts b := by
  simp [replyOuts]

@[simp] lemma replyOuts_cons_reply (r : PlanControlReply) (l : List Output) :
    replyOuts (Output.replyOut r :: l) = r :: replyOuts l := by
  simp [replyOuts]

@[simp] lemma replyOuts_cons_pcs (p : PCSMsg) (l : List Output) :
    replyOuts (Output.pcsOut p :: l) = replyOuts l := by simp [replyOuts]

@[simp] lemma replyOuts_cons_lc (n : String) (l : List Output) :
    replyOuts (Output.lcOut n :: l) = replyOuts l := by simp [replyOuts]

@[simp] lemma replyOuts_cons_spec (sp : PlanSpecification) (l : List Output) :
    replyOuts (Output.specOut sp :: l) = replyOuts l := by simp [replyOuts]

@[simp] lemma replyOuts_cons_db (k : DBKind) (i : String) (p : DBPayload)
    (l : List Output) : replyOuts (Output.dbOut k i p :: l) = replyOuts l := by
  simp [replyOuts]

@[simp] lemma replyOuts_cons_vc (v : VehicleCommand) (l : List Output) :
    replyOuts (Output.vcOut v :: l) = replyOuts l := by simp [replyOuts]

/-- Bundle of frame facts about one engine step used to verify the request
invariants: the request queue and the reply request id are untouched, every
emitted PlanControl reply carries the current reply request id, at most one
vehicle request is dispatched, and the reply deadline is either untouched or
freshly set by that one vehicle request. -/
def frameOK (now : Int) (s s2 : EngineState) (outs : List Output) : Prop :=
  s2.requests = s.requests ∧
  s2.reply.request_id = s.reply.request_id ∧
  (∀ p ∈ replyOuts outs, p.request_id = s.reply.request_id) ∧
  vcReqCount outs ≤ 1 ∧
  (vcReqCount outs = 0 → s2.vc_reply_deadline = s.vc_reply_deadline) ∧
  (vcReqCount outs = 1 → s2.vc_reply_deadline = now + c_vc_reply_timeout)

lemma frameOK_comp {now : Int} {s s1 s2 : EngineState} {o1 o2 : List Output}
    (h1 : frameOK now s s1 o1) (h2 : frameOK now s1 s2 o2)
    (hx : vcReqCount o1 = 0 ∨ vcReqCount o2 = 0) :
    frameOK now s s2 (o1 ++ o2) := by
  obtain ⟨a1, a2, a3, a4, a5, a6⟩ := h1
  obtain ⟨b1, b2, b3, b4, b5, b6⟩ := h2
  refine ⟨b1.trans a1, b2.trans a2, ?_, ?_, ?_, ?_⟩
  · intro p hp
    simp only [replyOuts_append, List.mem_append] at hp
    rcases hp with hp | hp
    · exact a3 p hp
    · exact (b3 p hp).trans a2
  · simp only [vcReqCount_append]
    rcases hx with hx | hx <;> omega
  · simp only [vcReqCount_append]
    intro h
    have hc1 : vcReqCount o1 = 0 := by omega
    have hc2 : vcReqCount o2 = 0 := by omega
    exact (b5 hc2).trans (a5 hc1)
  · simp only [vcReqCount_append]
    intro h
    rcases hx with hx | hx
    · have : vcReqCount o2 = 1 := by omega
      exact b6 this
    · have hc1 : vcReqCount o1 = 1 := by omega
      exact (b5 hx).trans (a6 hc1)

lemma frameOK_pre {now : Int} {s s1 s2 : EngineState} {outs : List Output}
    (h1 : s1.requests = s.requests)
    (h2 : s1.reply.request_id = s.reply.request_id)
    (h3 : s1.vc_reply_deadline = s.vc_reply_deadline)
    (h : frameOK now s1 s2 outs) : frameOK now s s2 outs := by
  obtain ⟨a1, a2, a3, a4, a5, a6⟩ := h
  exact ⟨a1.trans h1, a2.trans h2, fun p hp => (a3 p hp).trans h2, a4,
    fun hc => (a5 hc).trans h3, a6⟩

lemma frameOK_congr {now : Int} {s s2 s3 : EngineState} {outs : List Output}
    (h : frameOK now s s2 outs)
    (h1 : s3.requests = s2.requests)
    (h2 : s3.reply.request_id = s2.reply.request_id)
    (h3 : s3.vc_reply_deadline = s2.vc_reply_deadline) :
    frameOK now s s3 outs := by
  obtain ⟨a1, a2, a3, a4, a5, a6⟩ := h
  exact ⟨h1.trans a1, h2.trans a2, a3, a4,
    fun hc => h3.trans (a5 hc), fun hc => h3.trans (a6 hc)⟩

@[simp] lemma changeMode_count (now : Int) (st : PCSState) (d nid : String)
    (man : Option Maneuver) (s : EngineState) :
    vcReqCount (changeMode now st d nid man s).2 = 0 := by
  cases man <;>
    (simp only [changeMode]; all_goals ((try split) <;> (try split) <;> simp_all))

@[simp] lemma changeMode_replies (now : Int) (st : PCSState) (d nid : String)
    (man : Option Maneuver) (s : EngineState) :
    replyOuts (changeMode now st d nid man s).2 = [] := by
  cases man <;>
    (simp only [changeMode]; all_goals ((try split) <;> (try split) <;> simp_all))

@[simp] lemma changeMode_state (now : Int) (st : PCSState) (d nid : String)
    (man : Option Maneuver) (s : EngineState) :
    (changeMode now st d nid man s).1.pcs.state = st := by
  cases man <;>
    (simp only [changeMode]; all_goals ((try split) <;> (try split) <;> simp_all))

@[simp] lemma changeMode_requests (now : Int) (st : PCSState) (d nid : String)
    (man : Option Maneuver) (s : EngineState) :
    (changeMode now st d nid man s).1.requests = s.requests := by
  cases man <;>
    (simp only [changeMode]; all_goals ((try split) <;> (try split) <;> simp_all))

@[simp] lemma changeMode_reply (now : Int) (st : PCSState) (d nid : String)
    (man : Option Maneuver) (s : EngineState) :
    (changeMode now st d nid man s).1.reply = s.reply := by
  cases man <;>
    (simp only [changeMode]; all_goals ((try split) <;> (try split) <;> simp_all))

@[simp] lemma changeMode_deadline (now : Int) (st : PCSState) (d nid : String)
    (man : Option Maneuver) (s : EngineState) :
    (changeMode now st d nid man s).1.vc_reply_deadline = s.vc_reply_deadline := by
  cases man <;>
    (simp only [changeMode]; all_goals ((try split) <;> (try split) <;> simp_all))

@[simp] lemma changeMode_ctr (now : Int) (st : PCSState) (d nid : String)
    (man : Option Maneuver) (s : EngineState) :
    (changeMode now st d nid man s).1.vreq_ctr = s.vreq_ctr := by
  cases man <;>
    (simp only [changeMode]; all_goals ((try split) <;> (try split) <;> simp_all))

@[simp] lemma changeMode_spec (now : Int) (st : PCSState) (d nid : String)
    (man : Option Maneuver) (s : EngineState) :
    (changeMode now st d nid man s).1.spec = s.spec := by
  cases man <;>
    (simp only [changeMode]; all_goals ((try split) <;> (try split) <;> simp_all))

@[simp] lemma changeMode_esta (now : Int) (st : PCSState) (d nid : String)
    (man : Option Maneuver) (s : EngineState) :
    (changeMode now st d nid man s).1.esta = s.esta := by
  cases man <;>
    (simp only [changeMode]; all_goals ((try split) <;> (try split) <;> simp_all))

@[simp] lemma changeMode_vstate (now : Int) (st : PCSState) (d nid : String)
    (man : Option Maneuver) (s : EngineState) :
    (changeMode now st d nid man s).1.last_vstate = s.last_vstate := by
  cases man <;>
    (simp only [changeMode]; all_goals ((try split) <;> (try split) <;> simp_all))

@[simp] lemma vehicleRequest_count (now : Int) (o : Oracle) (cmd : VCCommand)
    (arg : Option Maneuver) (s : EngineState) :
    vcReqCount (vehicleRequest now o cmd arg s).2 = 1 := by
  cases arg <;>
    (simp only [vehicleRequest]; all_goals ((try split) <;> (try split) <;> simp_all))

@[simp] lemma vehicleRequest_replies (now : Int) (o : Oracle) (cmd : VCCommand)
    (arg : Option Maneuver) (s : EngineState) :
    replyOuts (vehicleRequest now o cmd arg s).2 = [] := by
  cases arg <;>
    (simp only [vehicleRequest]; all_goals ((try split) <;> (try split) <;> simp_all))

@[simp] lemma vehicleRequest_deadline (now : Int) (o : Oracle) (cmd : VCCommand)
    (arg : Option Maneuver) (s : EngineState) :
    (vehicleRequest now o cmd arg s).1.vc_reply_deadline = now + c_vc_reply_timeout := by
  cases arg <;>
    (simp only [vehicleRequest]; all_goals ((try split) <;> (try split) <;> simp_all))

@[simp] lemma vehicleRequest_requests (now : Int) (o : Oracle) (cmd : VCCommand)
    (arg : Option Maneuver) (s : EngineState) :
    (vehicleRequest now o cmd arg s).1.requests = s.requests := by
  cases arg <;>
    (simp only [vehicleRequest]; all_goals ((try split) <;> (try split) <;> simp_all))

@[simp] lemma vehicleRequest_reply (now : Int) (o : Oracle) (cmd : VCCommand)
    (arg : Option Maneuver) (s : EngineState) :
    (vehicleRequest now o cmd arg s).1.reply = s.reply := by
  cases arg <;>
    (simp only [vehicleRequest]; all_goals ((try split) <;> (try split) <;> simp_all))

@[simp] lemma vehicleRequest_pcs (now : Int) (o : Oracle) (cmd : VCCommand)
    (arg : Option Maneuver) (s : EngineState) :
    (vehicleRequest now o cmd arg s).1.pcs = s.pcs := by
  cases arg <;>
    (simp only [vehicleRequest]; all_goals ((try split) <;> (try split) <;> simp_all))

@[simp] lemma vehicleRequest_spec (now : Int) (o : Oracle) (cmd : VCCommand)
    (arg : Option Maneuver) (s : EngineState) :
    (vehicleRequest now o cmd arg s).1.spec = s.spec := by
  cases arg <;>
    (simp only [vehicleRequest]; all_goals ((try split) <;> (try split) <;> simp_all))

@[simp] lemma vehicleRequest_ctr (now : Int) (o : Oracle) (cmd : VCCommand)
    (arg : Option Maneuver) (s : EngineState) :
    (vehicleRequest now o cmd arg s).1.vreq_ctr = (s.vreq_ctr + 1) % 65536 := by
  cases arg <;>
    (simp only [vehicleRequest]; all_goals ((try split) <;> (try split) <;> simp_all))

lemma frameOK_changeMode (now : Int) (st : PCSState) (d nid : String)
    (man : Option Maneuver) (s : EngineState) :
    frameOK now s (changeMode now st d nid man s).1 (changeMode now st d nid man s).2 := by
  simp [frameOK]

lemma frameOK_vehicleRequest (now : Int) (o : Oracle) (cmd : VCCommand)
    (arg : Option Maneuver) (s : EngineState) :
    frameOK now s (vehicleRequest now o cmd arg s).1 (vehicleRequest now o cmd arg s).2 := by
  simp [frameOK]

lemma frameOK_startManeuver (now : Int) (o : Oracle) (pman : Option PlanManeuver)
    (s : EngineState) :
    frameOK now s (startManeuver now o pman s).1 (startManeuver now o pman s).2 := by
  cases pman with
  | none =>
      simp only [startManeuver]
      exact frameOK_changeMode ..
  | some pm =>
      simp only [startManeuver]
      exact frameOK_congr
        (frameOK_comp (frameOK_vehicleRequest ..) (frameOK_changeMode ..)
          (Or.inr (by simp)))
        rfl rfl rfl

/-- Bundle of facts about a step that dispatches no vehicle request at all:
queue, reply id and reply deadline untouched, every emitted reply carries the
current reply request id. -/
def quietOK (s s2 : EngineState) (outs : List Output) : Prop :=
  s2.requests = s.requests ∧
  s2.reply.request_id = s.reply.request_id ∧
  (∀ p ∈ replyOuts outs, p.request_id = s.reply.request_id) ∧
  vcReqCount outs = 0 ∧
  s2.vc_reply_deadline = s.vc_reply_deadline

lemma quietOK_frame {now : Int} {s s2 : EngineState} {outs : List Output}
    (h : quietOK s s2 outs) : frameOK now s s2 outs := by
  obtain ⟨a1, a2, a3, a4, a5⟩ := h
  exact ⟨a1, a2, a3, by omega, fun _ => a5, by omega⟩

lemma quietOK_comp {s s1 s2 : EngineState} {o1 o2 : List Output}
    (h1 : quietOK s s1 o1) (h2 : quietOK s1 s2 o2) :
    quietOK s s2 (o1 ++ o2) := by
  obtain ⟨a1, a2, a3, a4, a5⟩ := h1
  obtain ⟨b1, b2, b3, b4, b5⟩ := h2
  refine ⟨b1.trans a1, b2.trans a2, ?_, by simp [a4, b4], b5.trans a5⟩
  intro p hp
  simp only [replyOuts_append, List.mem_append] at hp
  rcases hp with hp | hp
  · exact a3 p hp
  · exact (b3 p hp).trans a2

lemma quietOK_pre {s s1 s2 : EngineState} {outs : List Output}
    (h1 : s1.requests = s.requests)
    (h2 : s1.reply.request_id = s.reply.request_id)
    (h3 : s1.vc_reply_deadline = s.vc_reply_deadline)
    (h : quietOK s1 s2 outs) : quietOK s s2 outs := by
  obtain ⟨a1, a2, a3, a4, a5⟩ := h
  exact ⟨a1.trans h1, a2.trans h2, fun p hp => (a3 p hp).trans h2,
    a4, a5.trans h3⟩

lemma quietOK_congr {s s2 s3 : EngineState} {outs : List Output}
    (h : quietOK s s2 outs)
    (h1 : s3.requests = s2.requests)
    (h2 : s3.reply.request_id = s2.reply.request_id)
    (h3 : s3.vc_reply_deadline = s2.vc_reply_deadline) :
    quietOK s s3 outs := by
  obtain ⟨a1, a2, a3, a4, a5⟩ := h
  exact ⟨h1.trans a1, h2.trans a2, a3, a4, h3.trans a5⟩

lemma quietOK_pure {s s2 : EngineState}
    (h1 : s2.requests = s.requests)
    (h2 : s2.reply.request_id = s.reply.request_id)
    (h3 : s2.vc_reply_deadline = s.vc_reply_deadline) :
    quietOK s s2 [] := by
  simp [quietOK, h1, h2, h3]

lemma quietOK_answer (ty : PCType) (d : String) (s : EngineState) :
    quietOK s (answer ty d s).1 (answer ty d s).2 := by
  simp [quietOK, answer]

lemma quietOK_onFailure (d : String) (s : EngineState) :
    quietOK s (onFailure d s).1 (onFailure d s).2 := by
  simp [quietOK, onFailure, answer]

lemma quietOK_onSuccess (d : String) (s : EngineState) :
    quietOK s (onSuccess d s).1 (onSuccess d s).2 := by
  simp [quietOK, onSuccess, answer]

lemma quietOK_changeLog (n : String) (s : EngineState) :
    quietOK s (changeLog n s).1 (changeLog n s).2 := by
  simp [quietOK, changeLog]

lemma quietOK_changeMode (now : Int) (st : PCSState) (d nid : String)
    (man : Option Maneuver) (s : EngineState) :
    quietOK s (changeMode now st d nid man s).1 (changeMode now st d nid man s).2 := by
  simp [quietOK]

lemma quietOK_handleArgSpecification (sp : PlanSpecification) (s : EngineState) :
    quietOK s (handleArgSpecification sp s).1 (handleArgSpecification sp s).2.1 := by
  simp [quietOK, handleArgSpecification]

lemma quietOK_handleQuickPlan (id : String) (m : Maneuver) (s : EngineState) :
    quietOK s (handleQuickPlan id m s).1 (handleQuickPlan id m s).2.1 := by
  simp [quietOK, handleQuickPlan]

lemma quietOK_handleArgMemento (o : Oracle) (pm : PlanMemento) (s : EngineState) :
    quietOK s (handleArgMemento o pm s).1 (handleArgMemento o pm s).2.1 := by
  rcases h : o.searchPlan pm.plan_id with _ | found
  · simp only [handleArgMemento, h]
    exact quietOK_pre rfl rfl rfl (quietOK_onFailure ..)
  · simp only [handleArgMemento, h]
    rcases hi : injectMemento pm found.maneuvers with _ | _ | ms <;>
      simp [hi, quietOK]

lemma quietOK_parseArg (o : Oracle) (id : String) (arg : Option PCArg)
    (s : EngineState) :
    quietOK s (parseArg o id arg s).1 (parseArg o id arg s).2.1 := by
  rcases arg with _ | a
  · simp only [parseArg]
    rcases h : o.searchPlan id with _ | found
    · rcases h2 : o.searchMemento id with _ | pmem
      · simp only [h, h2]
        exact quietOK_pre rfl rfl rfl (quietOK_onFailure ..)
      · simp only [h, h2]
        exact quietOK_pre rfl rfl rfl (quietOK_handleArgMemento ..)
    · simp [h, quietOK]
  · rcases a with sp | pm | m
    · exact quietOK_handleArgSpecification ..
    · exact quietOK_handleArgMemento ..
    · exact quietOK_handleQuickPlan ..

lemma quietOK_parsePlan (o : Oracle) (ps : Bool) (s : EngineState) :
    quietOK s (parsePlan o ps s).1 (parsePlan o ps s).2.1 := by
  rcases h : o.parseError with _ | e
  · cases ps <;> simp [parsePlan, h, quietOK]
  · simp only [parsePlan, h]
    exact quietOK_congr (quietOK_pre rfl rfl rfl (quietOK_onFailure ..)) rfl rfl rfl

lemma quietOK_loadPlan (now : Int) (o : Oracle) (pid : String) (arg : Option PCArg)
    (ps : Bool) (s : EngineState) :
    quietOK s (loadPlan now o pid arg ps s).1 (loadPlan now o pid arg ps s).2.1 := by
  simp only [loadPlan]
  split
  · exact quietOK_onFailure ..
  · split
    · exact quietOK_comp (quietOK_parseArg ..)
        (quietOK_changeMode now PCSState.ready
          ("plan load failed: " ++ (parseArg o pid arg s).2.2.2) "" none
          (parseArg o pid arg s).1)
    · split
      · exact quietOK_comp
          (quietOK_comp (quietOK_parseArg ..) (quietOK_parsePlan ..))
          (quietOK_changeMode now PCSState.ready
            ("plan parse failed: " ++
              (parsePlan o ps (parseArg o pid arg s).1).1.reply.info) "" none
            (parsePlan o ps (parseArg o pid arg s).1).1)
      · exact quietOK_comp
          (quietOK_comp (quietOK_parseArg ..) (quietOK_parsePlan ..))
          (quietOK_pre rfl rfl rfl (quietOK_onSuccess "plan loaded" _))

lemma quietOK_getPlan (s : EngineState) :
    quietOK s (getPlan s).1 (getPlan s).2 := by
  simp only [getPlan]
  split
  · exact quietOK_onFailure ..
  · exact quietOK_pre rfl rfl rfl (quietOK_onSuccess ..)

lemma quietOK_stopPlanTrue (now : Int) (o : Oracle) (s : EngineState) :
    quietOK s (stopPlan now o true s).1 (stopPlan now o true s).2.1 := by
  simp only [stopPlan]
  split <;> simp [quietOK]

lemma frameOK_stopPlan (now : Int) (o : Oracle) (ps : Bool) (s : EngineState) :
    frameOK now s (stopPlan now o ps s).1 (stopPlan now o ps s).2.1 := by
  simp only [stopPlan]
  split
  · split
    · refine frameOK_comp (frameOK_vehicleRequest ..) ?_ (Or.inr (by simp))
      exact frameOK_pre rfl rfl rfl
        (frameOK_changeMode now PCSState.ready "plan stopped" "" none _)
    · exact quietOK_frame (quietOK_pure rfl rfl rfl)
  · split
    · exact quietOK_frame (quietOK_congr (quietOK_onFailure ..) rfl rfl rfl)
    · exact quietOK_frame (quietOK_pure rfl rfl rfl)

/-- Facts about `Task::startCalibration`: frame facts, and the failure branch
dispatches nothing. -/
lemma startCalibration_facts (now : Int) (o : Oracle) (s : EngineState) :
    frameOK now s (startCalibration now o s).1 (startCalibration now o s).2.1 ∧
    (¬(startCalibration now o s).2.2 →
      vcReqCount (startCalibration now o s).2.1 = 0 ∧
      (startCalibration now o s).1.vc_reply_deadline = s.vc_reply_deadline) := by
  simp only [startCalibration]
  split
  · refine ⟨quietOK_frame (quietOK_congr (quietOK_onFailure ..) rfl rfl rfl), ?_⟩
    intro _
    constructor
    · simp [onFailure, answer]
    · simp [onFailure, answer]
  · refine ⟨frameOK_vehicleRequest now o VCCommand.execManeuver (some _) s, ?_⟩
    intro h
    simp at h

/-- Facts about `Task::startManeuver`: frame facts, and when the resulting
published state is not EXECUTING no vehicle request was dispatched. -/
lemma startManeuver_facts (now : Int) (o : Oracle) (pman : Option PlanManeuver)
    (s : EngineState) :
    frameOK now s (startManeuver now o pman s).1 (startManeuver now o pman s).2 ∧
    (¬((startManeuver now o pman s).1.pcs.state = PCSState.executing) →
      vcReqCount (startManeuver now o pman s).2 = 0 ∧
      (startManeuver now o pman s).1.vc_reply_deadline = s.vc_reply_deadline) := by
  refine ⟨frameOK_startManeuver .., ?_⟩
  cases pman with
  | none =>
      intro _
      simp only [startManeuver]
      constructor
      · simp
      · simp
  | some pm =>
      intro h
      exact absurd (by simp [startManeuver]) h

lemma quietOK_startPlanBookkeeping (pid : String) (stopped : Bool)
    (s : EngineState) :
    quietOK s (startPlanBookkeeping pid stopped s).1 (startPlanBookkeeping pid stopped s).2 := by
  simp only [startPlanBookkeeping]
  split <;> (try split) <;> simp [quietOK, changeLog]

set_option maxHeartbeats 2000000 in
lemma startPlan_facts (now : Int) (o : Oracle) (pid : String) (arg : Option PCArg)
    (flags : Nat) (s : EngineState) :
    frameOK now s (startPlan now o pid arg flags s).1 (startPlan now o pid arg flags s).2.1 ∧
    (¬(startPlan now o pid arg flags s).2.2 →
      vcReqCount (startPlan now o pid arg flags s).2.1 = 0 ∧
      (startPlan now o pid arg flags s).1.vc_reply_deadline = s.vc_reply_deadline) := by
  have hst := quietOK_stopPlanTrue now o s
  have hso1 := quietOK_changeMode now PCSState.initializing
    ("plan initializing: " ++ pid) "" none (stopPlan now o true s).1
  have hld := quietOK_loadPlan now o pid arg true
    (changeMode now PCSState.initializing ("plan initializing: " ++ pid) "" none
      (stopPlan now o true s).1).1
  have hpre3 := quietOK_comp (quietOK_comp hst hso1) hld
  have hbk := quietOK_startPlanBookkeeping pid (stopPlan now o true s).2.2
    (loadPlan now o pid arg true
      (changeMode now PCSState.initializing ("plan initializing: " ++ pid) "" none
        (stopPlan now o true s).1).1).1
  have hpre4 := quietOK_comp hpre3 hbk
  obtain ⟨p1, p2, p3, p4, p5⟩ := hpre4
  simp only [startPlan]
  split
  · obtain ⟨q1, q2, q3, q4, q5⟩ := hpre3
    exact ⟨quietOK_frame ⟨q1, q2, q3, q4, q5⟩, fun _ => ⟨q4, q5⟩⟩
  · split
    · obtain ⟨hscf, hscq⟩ := startCalibration_facts now o
        (startPlanBookkeeping pid (stopPlan now o true s).2.2
          (loadPlan now o pid arg true
            (changeMode now PCSState.initializing ("plan initializing: " ++ pid) "" none
              (stopPlan now o true s).1).1).1).1
      constructor
      · exact frameOK_comp (quietOK_frame ⟨p1, p2, p3, p4, p5⟩) hscf (Or.inl p4)
      · intro hflag
        split at hflag
        · obtain ⟨c1, c2⟩ := hscq (by assumption)
          refine ⟨?_, c2.trans p5⟩
          have h4 := p4
          simp only [vcReqCount_append] at h4 ⊢
          omega
        · exact absurd rfl hflag
    · obtain ⟨hsmf, hsmq⟩ := startManeuver_facts now o o.loadStart
        (startPlanBookkeeping pid (stopPlan now o true s).2.2
          (loadPlan now o pid arg true
            (changeMode now PCSState.initializing ("plan initializing: " ++ pid) "" none
              (stopPlan now o true s).1).1).1).1
      split
      · refine ⟨?_, fun hflag => absurd rfl hflag⟩
        refine frameOK_comp
          (frameOK_comp (quietOK_frame ⟨p1, p2, p3, p4, p5⟩) hsmf (Or.inl p4))
          (quietOK_frame (quietOK_onSuccess ..)) (Or.inr (by simp [onSuccess, answer]))
      · constructor
        · refine frameOK_comp
            (frameOK_comp (quietOK_frame ⟨p1, p2, p3, p4, p5⟩) hsmf (Or.inl p4))
            (quietOK_frame (quietOK_onFailure ..)) (Or.inr (by simp [onFailure, answer]))
        · intro hflag
          obtain ⟨c1, c2⟩ := hsmq (by assumption)
          refine ⟨?_, by simpa [onFailure, answer] using c2.trans p5⟩
          have h4 := p4
          simp only [vcReqCount_append, onFailure, answer] at h4 ⊢
          simp only [vcReqCount_cons_reply, vcReqCount_nil] at h4 ⊢
          omega

set_option maxHeartbeats 2000000 in
lemma processRequestOp_facts (now : Int) (o : Oracle) (pc : PlanControl)
    (s : EngineState) :
    (processRequestOp now o pc s).1.requests = s.requests ∧
    (∀ p ∈ replyOuts (processRequestOp now o pc s).2, p.request_id = s.reply.request_id) ∧
    vcReqCount (processRequestOp now o pc s).2 ≤ 1 ∧
    (vcReqCount (processRequestOp now o pc s).2 = 0 →
      (processRequestOp now o pc s).1.vc_reply_deadline = s.vc_reply_deadline) ∧
    (vcReqCount (processRequestOp now o pc s).2 = 1 →
      (processRequestOp now o pc s).1.vc_reply_deadline = now + c_vc_reply_timeout) := by
  simp only [processRequestOp]
  split
  · obtain ⟨q1, q2, q3, q4, q5⟩ := quietOK_onFailure
      "engine not ready: entity state not normal" s
    exact ⟨q1, q3, by simp [q4], fun _ => q5, by simp [q4]⟩
  · split
    · obtain ⟨spF, spQ⟩ := startPlan_facts now o pc.plan_id pc.arg pc.flags s
      obtain ⟨f1, f2, f3, f4, f5, f6⟩ := spF
      split
      · obtain ⟨c1, c2⟩ := spQ (by assumption)
        refine ⟨?_, ?_, ?_, ?_, ?_⟩
        · simp [f1]
        · intro p hp
          simp only [replyOuts_append, vehicleRequest_replies, List.append_nil] at hp
          exact f3 p hp
        · simp only [vcReqCount_append, vehicleRequest_count, c1]
          omega
        · intro h0
          simp only [vcReqCount_append, vehicleRequest_count, c1] at h0
          omega
        · intro _
          simp
      · exact ⟨f1, f3, f4, f5, f6⟩
    · obtain ⟨f1, f2, f3, f4, f5, f6⟩ := frameOK_stopPlan now o false s
      exact ⟨f1, f3, f4, f5, f6⟩
    · obtain ⟨q1, q2, q3, q4, q5⟩ := quietOK_loadPlan now o pc.plan_id pc.arg false s
      exact ⟨q1, q3, by simp [q4], fun _ => q5, by simp [q4]⟩
    · obtain ⟨q1, q2, q3, q4, q5⟩ := quietOK_getPlan s
      exact ⟨q1, q3, by simp [q4], fun _ => q5, by simp [q4]⟩
    · obtain ⟨q1, q2, q3, q4, q5⟩ := quietOK_onFailure
        "plan control operation not supported" s
      exact ⟨q1, q3, by simp [q4], fun _ => q5, by simp [q4]⟩

lemma processRequest_facts (now : Int) (o : Oracle) (pc : PlanControl)
    (s : EngineState) :
    (processRequest now o pc s).1.requests = s.requests ∧
    (∀ p ∈ replyOuts (processRequest now o pc s).2, p.request_id = pc.request_id) ∧
    vcReqCount (processRequest now o pc s).2 ≤ 1 ∧
    (vcReqCount (processRequest now o pc s).2 = 0 →
      (processRequest now o pc s).1.vc_reply_deadline = s.vc_reply_deadline) ∧
    (vcReqCount (processRequest now o pc s).2 = 1 →
      (processRequest now o pc s).1.vc_reply_deadline = now + c_vc_reply_timeout) := by
  simp only [processRequest]
  refine ⟨(processRequestOp_facts now o pc _).1,
    fun p hp => ((processRequestOp_facts now o pc _).2.1 p hp).trans rfl,
    (processRequestOp_facts now o pc _).2.2.1,
    fun h0 => ((processRequestOp_facts now o pc _).2.2.2.1 h0).trans rfl,
    (processRequestOp_facts now o pc _).2.2.2.2⟩

lemma onVehicleService_facts (now : Int) (o : Oracle) (vs : VehicleState)
    (s : EngineState) :
    frameOK now s (onVehicleService now o vs s).1 (onVehicleService now o vs s).2 ∧
    (pendingReply s → vcReqCount (onVehicleService now o vs s).2 = 0 ∧
      (onVehicleService now o vs s).1.vc_reply_deadline = s.vc_reply_deadline) := by
  simp only [onVehicleService]
  split
  · exact ⟨frameOK_changeMode .., fun _ => ⟨by simp, by simp⟩⟩
  · split
    · rename_i hnp
      exact ⟨frameOK_startManeuver .., fun hp => absurd hp hnp⟩
    · exact ⟨quietOK_frame (quietOK_pure rfl rfl rfl), fun _ => ⟨by simp, rfl⟩⟩
  · split
    · rename_i hnp
      refine ⟨?_, fun hp => absurd hp hnp⟩
      refine frameOK_comp
        (quietOK_frame (quietOK_congr (quietOK_onFailure ..) rfl rfl rfl))
        (frameOK_pre rfl rfl rfl
          (frameOK_changeMode now PCSState.ready vs.last_error "" none _))
        (Or.inr (by simp))
    · exact ⟨quietOK_frame (quietOK_pure rfl rfl rfl), fun _ => ⟨by simp, rfl⟩⟩
  · exact ⟨quietOK_frame (quietOK_pure rfl rfl rfl), fun _ => ⟨by simp, rfl⟩⟩

lemma onVehicleManeuver_facts (now : Int) (o : Oracle) (vs : VehicleState)
    (s : EngineState) :
    frameOK now s (onVehicleManeuver now o vs s).1 (onVehicleManeuver now o vs s).2 ∧
    (pendingReply s → vcReqCount (onVehicleManeuver now o vs s).2 = 0 ∧
      (onVehicleManeuver now o vs s).1.vc_reply_deadline = s.vc_reply_deadline) := by
  simp only [onVehicleManeuver]
  split
  · exact ⟨quietOK_frame (quietOK_pure rfl rfl rfl), fun _ => ⟨by simp, rfl⟩⟩
  · rename_i hg
    have hnp : ¬pendingReply s := fun hp => hg (Or.inr hp)
    refine ⟨?_, fun hp => absurd hp hnp⟩
    split
    · split
      · refine frameOK_comp ?_
          (frameOK_pre rfl rfl rfl
            (frameOK_changeMode now PCSState.ready "plan completed" "" none _))
          (Or.inr (by simp))
        refine frameOK_comp (frameOK_vehicleRequest ..)
          (quietOK_frame (quietOK_congr (quietOK_onSuccess ..) rfl rfl rfl))
          (Or.inr (by simp [onSuccess, answer]))
      · exact frameOK_startManeuver ..
    · exact quietOK_frame (quietOK_pure rfl rfl rfl)

lemma onVehicleErrorBlocked_facts (now : Int) (o : Oracle) (edesc : String)
    (s : EngineState) :
    frameOK now s (onVehicleErrorBlocked now o edesc s).1
      (onVehicleErrorBlocked now o edesc s).2 := by
  simp only [onVehicleErrorBlocked]
  split
  · refine frameOK_comp
      (frameOK_congr
        (frameOK_comp (quietOK_frame (quietOK_onFailure ..))
          (frameOK_vehicleRequest now o VCCommand.stopCalibrationCmd none _)
          (Or.inl (by simp [onFailure, answer])))
        rfl rfl rfl)
      (frameOK_changeMode now PCSState.blocked edesc "" none _)
      (Or.inr (by simp))
  · exact frameOK_comp (quietOK_frame (quietOK_pure rfl rfl rfl))
      (frameOK_changeMode now PCSState.blocked edesc "" none _)
      (Or.inl (by simp))

lemma quietOK_onVehicleErrorReply (edesc : String) (s : EngineState) :
    quietOK s (onVehicleErrorReply edesc s).1 (onVehicleErrorReply edesc s).2 := by
  simp only [onVehicleErrorReply]
  split
  · exact quietOK_congr (quietOK_onFailure ..) rfl rfl rfl
  · exact quietOK_pure rfl rfl rfl

@[simp] lemma onVehicleErrorReply_deadline (edesc : String) (s : EngineState) :
    (onVehicleErrorReply edesc s).1.vc_reply_deadline = s.vc_reply_deadline := by
  simp only [onVehicleErrorReply]
  split <;> simp [onFailure, answer]

lemma onVehicleError_facts (now : Int) (o : Oracle) (vs : VehicleState)
    (s : EngineState) :
    frameOK now s (onVehicleError now o vs s).1 (onVehicleError now o vs s).2 ∧
    (pendingReply s → vcReqCount (onVehicleError now o vs s).2 = 0 ∧
      (onVehicleError now o vs s).1.vc_reply_deadline = s.vc_reply_deadline) := by
  simp only [onVehicleError]
  split
  all_goals
    split
    · rename_i hg
      constructor
      · exact frameOK_comp
          (quietOK_frame (quietOK_onVehicleErrorReply _ s))
          (onVehicleErrorBlocked_facts now o _ _)
          (Or.inl (quietOK_onVehicleErrorReply _ s).2.2.2.1)
      · intro hp
        refine absurd (show pendingReply (onVehicleErrorReply _ s).1 from ?_) hg.2
        simpa [pendingReply] using hp
    · constructor
      · exact quietOK_frame (quietOK_onVehicleErrorReply _ s)
      · intro hp
        exact ⟨(quietOK_onVehicleErrorReply _ s).2.2.2.1,
          (quietOK_onVehicleErrorReply _ s).2.2.2.2⟩

lemma calibrationUpdate_facts (now : Int) (o : Oracle) (vs : VehicleState)
    (s : EngineState) :
    frameOK now s (calibrationUpdate now o vs s).1 (calibrationUpdate now o vs s).2 ∧
    (pendingReply s → vcReqCount (calibrationUpdate now o vs s).2 = 0 ∧
      (calibrationUpdate now o vs s).1.vc_reply_deadline = s.vc_reply_deadline) := by
  simp only [calibrationUpdate]
  split
  · split
    · split
      · rename_i hg
        refine ⟨frameOK_pre rfl rfl rfl (frameOK_startManeuver ..),
          fun hp => absurd hp (fun hp2 => hg.2 hp2)⟩
      · exact ⟨quietOK_frame (quietOK_pure rfl rfl rfl), fun _ => ⟨by simp, rfl⟩⟩
    · split
      · refine ⟨?_, fun _ => ⟨?_, ?_⟩⟩
        · refine frameOK_comp
            (quietOK_frame (quietOK_pre rfl rfl rfl
              (quietOK_congr (quietOK_onFailure ..) rfl rfl rfl)))
            (frameOK_pre rfl rfl rfl
              (frameOK_changeMode now PCSState.ready o.calibrationInfo "" none _))
            (Or.inl (by simp [onFailure, answer]))
        · simp [onFailure, answer]
        · simp [onFailure, answer]
      · exact ⟨quietOK_frame (quietOK_pure rfl rfl rfl), fun _ => ⟨by simp, rfl⟩⟩
  · exact ⟨quietOK_frame (quietOK_pure rfl rfl rfl), fun _ => ⟨by simp, rfl⟩⟩

lemma stepThenCalib (now : Int) (o : Oracle) (vs : VehicleState)
    {s s1 : EngineState} {o1 : List Output} (hnow : 0 ≤ now)
    (h1 : frameOK now s s1 o1)
    (hB1 : pendingReply s → vcReqCount o1 = 0 ∧
      s1.vc_reply_deadline = s.vc_reply_deadline) :
    frameOK now s (calibrationUpdate now o vs s1).1
      (o1 ++ (calibrationUpdate now o vs s1).2) ∧
    (pendingReply s → vcReqCount (o1 ++ (calibrationUpdate now o vs s1).2) = 0 ∧
      (calibrationUpdate now o vs s1).1.vc_reply_deadline = s.vc_reply_deadline) := by
  obtain ⟨h2, hB2⟩ := calibrationUpdate_facts now o vs s1
  constructor
  · by_cases hc : vcReqCount o1 = 0
    · exact frameOK_comp h1 h2 (Or.inl hc)
    · have hc1 : vcReqCount o1 = 1 := by
        have := h1.2.2.2.1
        omega
      have hdl := h1.2.2.2.2.2 hc1
      have hpend : pendingReply s1 := by
        simp only [pendingReply, hdl, c_vc_reply_timeout]
        omega
      exact frameOK_comp h1 h2 (Or.inr (hB2 hpend).1)
  · intro hp
    obtain ⟨c1, c2⟩ := hB1 hp
    have hpend1 : pendingReply s1 := by
      simp only [pendingReply, c2]
      exact hp
    obtain ⟨d1, d2⟩ := hB2 hpend1
    exact ⟨by simp [c1, d1], d2.trans c2⟩

lemma consumeVehicleState_facts (now : Int) (o : Oracle) (vs : VehicleState)
    (s : EngineState) (hnow : 0 ≤ now) :
    frameOK now s (consumeVehicleState now o vs s).1 (consumeVehicleState now o vs s).2 ∧
    (pendingReply s → vcReqCount (consumeVehicleState now o vs s).2 = 0 ∧
      (consumeVehicleState now o vs s).1.vc_reply_deadline = s.vc_reply_deadline) := by
  simp only [consumeVehicleState]
  split
  · exact ⟨quietOK_frame (quietOK_pure rfl rfl rfl), fun _ => ⟨by simp, rfl⟩⟩
  · split
    · obtain ⟨h1, hB1⟩ := onVehicleService_facts now o vs
        { s with last_vstate := now }
      exact stepThenCalib now o vs hnow (frameOK_pre rfl rfl rfl h1) hB1
    · obtain ⟨h1, hB1⟩ := onVehicleError_facts now o vs
        { s with last_vstate := now }
      exact stepThenCalib now o vs hnow (frameOK_pre rfl rfl rfl h1) hB1
    · obtain ⟨h1, hB1⟩ := onVehicleError_facts now o vs
        { s with last_vstate := now }
      exact stepThenCalib now o vs hnow (frameOK_pre rfl rfl rfl h1) hB1
    · obtain ⟨h1, hB1⟩ := onVehicleManeuver_facts now o vs
        { s with last_vstate := now }
      exact stepThenCalib now o vs hnow (frameOK_pre rfl rfl rfl h1) hB1
    · exact stepThenCalib now o vs hnow
        (quietOK_frame (quietOK_pure rfl rfl rfl)) (fun _ => ⟨by simp, rfl⟩)

lemma mainReport_facts (o : Oracle) (rd : Bool) (s : EngineState) :
    (mainReport o rd s).1.vc_reply_deadline = s.vc_reply_deadline ∧
    (mainReport o rd s).1.requests = s.requests ∧
    (mainReport o rd s).1.vreq_ctr = s.vreq_ctr ∧
    (mainReport o rd s).1.pcs.state = s.pcs.state ∧
    (mainReport o rd s).1.esta = s.esta ∧
    (mainReport o rd s).1.last_vstate = s.last_vstate ∧
    vcReqCount (mainReport o rd s).2 = 0 ∧
    replyOuts (mainReport o rd s).2 = [] := by
  simp only [mainReport]
  split
  · split <;> simp
  · simp

lemma mainVsTimeout_facts (now : Int) (s : EngineState) :
    (mainVsTimeout now s).1.vc_reply_deadline = s.vc_reply_deadline ∧
    (mainVsTimeout now s).1.requests = s.requests ∧
    (mainVsTimeout now s).1.vreq_ctr = s.vreq_ctr ∧
    vcReqCount (mainVsTimeout now s).2 = 0 ∧
    replyOuts (mainVsTimeout now s).2 = [] := by
  simp only [mainVsTimeout]
  split <;> simp

lemma mainVsTimeout_state (now : Int) (s : EngineState) :
    (s.esta.esta = EStaKind.normal ∧ c_vs_timeout ≤ now - s.last_vstate →
      (mainVsTimeout now s).1.pcs.state = PCSState.blocked) ∧
    (¬(s.esta.esta = EStaKind.normal ∧ c_vs_timeout ≤ now - s.last_vstate) →
      mainVsTimeout now s = (s, [])) := by
  simp only [mainVsTimeout]
  constructor
  · intro h
    rw [if_pos ⟨h.1, h.2⟩]
    simp
  · intro h
    rw [if_neg (by exact fun hc => h ⟨hc.1, hc.2⟩)]

lemma mainServeQueue_facts (now : Int) (o : Oracle) (s : EngineState) :
    vcReqCount (mainServeQueue now o s).2 ≤ 1 ∧
    (pendingReply s → mainServeQueue now o s = (s, [])) ∧
    (s.requests = [] → mainServeQueue now o s = (s, [])) := by
  simp only [mainServeQueue]
  split
  · rename_i hnp
    refine ⟨?_, fun hp => absurd hp hnp, ?_⟩
    · split
      · simp
      · exact (processRequest_facts now o _ _).2.2.1
    · intro hq
      rw [hq]
  · exact ⟨by simp, fun _ => rfl, fun _ => rfl⟩

lemma mainReplyTimeout_facts (now : Int) (s : EngineState) :
    vcReqCount (mainReplyTimeout now s).2 = 0 ∧
    replyOuts (mainReplyTimeout now s).2 = [] := by
  simp only [mainReplyTimeout]
  split <;> (try split) <;> simp

lemma mainReplyTimeout_quiet (now : Int) (s : EngineState)
    (h : s.vc_reply_deadline < 0 ∨ now < s.vc_reply_deadline) :
    mainReplyTimeout now s = (s, []) := by
  simp only [mainReplyTimeout]
  rw [if_pos]
  split <;> omega

lemma mainReplyTimeout_expired (now : Int) (s : EngineState)
    (h0 : 0 ≤ s.vc_reply_deadline) (h1 : s.vc_reply_deadline ≤ now) :
    (mainReplyTimeout now s).1.pcs.state = PCSState.ready ∧
    (mainReplyTimeout now s).1.requests = [] ∧
    (mainReplyTimeout now s).1.vreq_ctr = (s.vreq_ctr + 1) % 65536 ∧
    (mainReplyTimeout now s).1.vc_reply_deadline = -1 := by
  simp only [mainReplyTimeout]
  rw [if_neg]
  · simp
  · rw [if_neg (by omega)]
    omega

lemma onMainStep_count (now : Int) (o : Oracle) (rd : Bool) (s : EngineState) :
    vcReqCount (onMainStep now o rd s).2 ≤ 1 ∧
    (pendingReply s → vcReqCount (onMainStep now o rd s).2 = 0) := by
  obtain ⟨d1, r1, c1, st1, e1, v1, n1, p1⟩ := mainReport_facts o rd s
  obtain ⟨d2, r2, c2, n2, p2⟩ := mainVsTimeout_facts now (mainReport o rd s).1
  obtain ⟨n3, hP3, hQ3⟩ :=
    mainServeQueue_facts now o (mainVsTimeout now (mainReport o rd s).1).1
  obtain ⟨n4, p4⟩ := mainReplyTimeout_facts now
    (mainServeQueue now o (mainVsTimeout now (mainReport o rd s).1).1).1
  constructor
  · simp only [onMainStep, vcReqCount_append, n1, n2, n4]
    omega
  · intro hp
    have hp2 : pendingReply (mainVsTimeout now (mainReport o rd s).1).1 := by
      simp only [pendingReply, d2, d1]
      exact hp
    have c3 : vcReqCount
        (mainServeQueue now o (mainVsTimeout now (mainReport o rd s).1).1).2 = 0 := by
      simp [hP3 hp2]
    simp only [onMainStep, vcReqCount_append, n1, n2, c3, n4]

lemma consumePlanControl_facts (now : Int) (o : Oracle) (pc : PlanControl)
    (s : EngineState) :
    vcReqCount (consumePlanControl now o pc s).2 ≤ 1 ∧
    (pendingReply s → vcReqCount (consumePlanControl now o pc s).2 = 0) := by
  simp only [consumePlanControl]
  split
  · exact ⟨by simp, fun _ => by simp⟩
  · split
    · exact ⟨by simp, fun _ => by simp⟩
    · rename_i hnp
      split
      · exact ⟨(processRequest_facts now o pc s).2.2.1, fun hp => absurd hp hnp⟩
      · exact ⟨(processRequest_facts now o _ _).2.2.1, fun hp => absurd hp hnp⟩

lemma consumeVehicleCommand_count (now : Int) (vc : VehicleCommand)
    (s : EngineState) : vcReqCount (consumeVehicleCommand now vc s).2 = 0 := by
  simp only [consumeVehicleCommand]
  split
  · simp
  split
  · simp
  split
  · simp
  split
  · split <;> simp
  · simp

lemma consumeEntityActivationState_facts (now : Int) (o : Oracle)
    (ea : EntityActivationState) (s : EngineState) :
    vcReqCount (consumeEntityActivationState now o ea s).2 ≤ 1 ∧
    (pendingReply s → vcReqCount (consumeEntityActivationState now o ea s).2 = 0) := by
  simp only [consumeEntityActivationState]
  split
  · exact ⟨by simp, fun _ => by simp⟩
  · split
    · exact ⟨by simp, fun _ => by simp⟩
    · split
      all_goals
        split
        · split
          · rename_i hg
            refine ⟨by simp [onFailure, answer], fun hp => ?_⟩
            exfalso
            refine hg.2 ?_
            simpa [pendingReply, onFailure, answer] using hp
          · exact ⟨by simp [onFailure, answer], fun _ => by simp [onFailure, answer]⟩
        · exact ⟨by simp, fun _ => by simp⟩

lemma consume_count (now : Int) (o : Oracle) (m : BusInput) (s : EngineState)
    (hnow : 0 ≤ now) :
    vcReqCount (consume now o m s).2 ≤ 1 ∧
    (pendingReply s → vcReqCount (consume now o m s).2 = 0) := by
  cases m
  case planControl pc => exact consumePlanControl_facts now o pc s
  case planDB =>
    refine ⟨?_, fun _ => ?_⟩ <;>
      (simp only [consume, consumePlanDB]; split <;> simp)
  case estimatedState e =>
    refine ⟨?_, fun _ => ?_⟩ <;>
      (simp only [consume, consumeEstimatedState]; split <;> simp)
  case maneuverControlState mm =>
    refine ⟨?_, fun _ => ?_⟩ <;>
      (simp only [consume, consumeManeuverControlState]; split <;> simp)
  case powerOperation po =>
    refine ⟨?_, fun _ => ?_⟩ <;>
      (simp only [consume, consumePowerOperation];
       (try split) <;> (try split) <;> (try split) <;> simp)
  case registerManeuver mid =>
    refine ⟨?_, fun _ => ?_⟩ <;>
      (simp only [consume, consumeRegisterManeuver]; split <;> simp)
  case vehicleCommand vc =>
    have h := consumeVehicleCommand_count now vc s
    exact ⟨by simp only [consume]; omega, fun _ => by simpa [consume] using h⟩
  case vehicleState vs =>
    obtain ⟨hf, hq⟩ := consumeVehicleState_facts now o vs s hnow
    exact ⟨hf.2.2.2.1, fun hp => (hq hp).1⟩
  case entityInfo ei =>
    refine ⟨?_, fun _ => ?_⟩ <;>
      (simp only [consume, consumeEntityInfo]; split <;> simp)
  case entityActivationState ea => exact consumeEntityActivationState_facts now o ea s
  case fuelLevel =>
    exact ⟨by simp [consume, consumeFuelLevel], fun _ => by simp [consume, consumeFuelLevel]⟩
  case memento mm =>
    refine ⟨?_, fun _ => ?_⟩ <;>
      (simp only [consume, consumeMemento]; (try split) <;> simp)


-- fixtures
def o0 : Oracle := {
  searchPlan := fun _ => none, searchMemento := fun _ => none, searchInfo := "plan not found",
  parseError := none, stats := ⟨[]⟩, loadStart := none, loadNext := none,
  isDone := false, isCalibrationDone := false, hasCalibrationFailed := false,
  calibrationInfo := "", currentId := "", estCalibTime := 0, entityActOk := true,
  resolve := fun _ => none, onPlanDBOk := true, dbOpenOk := true, progressVal := 0, etaVal := 0 }

def pcs0 : PCSMsg := { state := .ready, plan_id := "", man_id := "", man_type := 65535, plan_progress := -1, plan_eta := 0, last_outcome := .lpoNone, man_eta := 0, timestamp := 0 }
def reply0 : PlanControlReply := { dest := 0, dest_ent := 0, request_id := 0, op := .opStop, plan_id := "", type := .pcSuccess, info := "", arg := none }
def vcf0 : VehicleCommand := { type := .vcRequest, request_id := 0, command := .stopManeuver, maneuver := none, calib_time := 0, info := "", dest := 0, dest_ent := 0 }
def s0 : EngineState := {
  sysId := 1, entId := 7,
  args := { progress := false, fpredict := true, calibration_time := 10, do_calib := true, actfail_abort := false, sk_calib := false, sk_radius := 20, sk_rpm := 1600, label_imu := "IMU" },
  pcs := pcs0, reply := reply0, last_event := "init", vreq_ctr := 0,
  vc_reply_deadline := -1, last_vstate := 0, vc := vcf0, spec := emptySpec,
  supported := [], state_es := { src := 1, lat := 3, lon := 4 }, mcs := { state := .executing },
  cinfo := [], eid_imu := 2, imu_enabled := false, requests := [], plan_ref := 0,
  mh := [], plan := { events := [] }, esta := { esta := .normal, code := .active }, lc_name := "" }

def man1 : Maneuver := { imcId := 450, name := "Goto", plan_ref := 0, memento := "", lat := 0, lon := 0, radius := 0, speed := 0, duration := 0 }
def P1 : PlanSpecification := { plan_id := "p1", description := "d", vnamespace := "n", start_man_id := "m1", maneuvers := [{ maneuver_id := "m1", data := some man1 }], transitions := [], source_entity := 99 }

def reqLoad : PlanControl := { type := .pcRequest, op := .opLoad, request_id := 10, plan_id := "p1", flags := 0, arg := some (.spec P1), src := 2, src_ent := 3 }
def reqGet : PlanControl := { type := .pcRequest, op := .opGet, request_id := 11, plan_id := "p1", flags := 0, arg := none, src := 2, src_ent := 3 }

def stLoad := consume 4 o0 (.planControl reqLoad) s0

def sExec := { stLoad.1 with pcs := { stLoad.1.pcs with state := .executing } }

def P2 : PlanSpecification := { plan_id := "p2", description := "", vnamespace := "", start_man_id := "m1", maneuvers := [{ maneuver_id := "m1", data := some man1 }], transitions := [], source_entity := 0 }
def oC5 : Oracle := { o0 with searchPlan := fun id => if id = "p2" then some P2 else none }
def pmX : PlanMemento := { id := "mem1", plan_id := "p2", maneuver_id := "mX", memento := "bytes" }
def reqLoadMem : PlanControl := { reqLoad with arg := some (.memento pmX), plan_id := "p2", request_id := 12 }

def sTO := { s0 with vc_reply_deadline := 1, vreq_ctr := 5, pcs := { pcs0 with state := .executing }, requests := [reqGet], last_vstate := 3 }

def sVS := { s0 with last_vstate := 0 }

def sPend := { s0 with vc_reply_deadline := 10, vreq_ctr := 5, pcs := { pcs0 with state := .executing } }
def vcIP : VehicleCommand := { type := .vcInProgress, request_id := 5, command := .execManeuver, maneuver := none, calib_time := 0, info := "", dest := 1, dest_ent := 7 }
def vcStale : VehicleCommand := { vcIP with request_id := 4 }

def sRdy := { s0 with pcs := { pcs0 with last_outcome := .lpoSuccess, plan_progress := 50 } }
def reqStop : PlanControl := { type := .pcRequest, op := .opStop, request_id := 13, plan_id := "p1", flags := 0, arg := none, src := 2, src_ent := 3 }

def sMH := { s0 with mh := [(5, P2)] }
def memK : Memento := { id := "memid", plan_ref := 5, man_id := "m1", payload := "pay" }
def memU : Memento := { id := "memid", plan_ref := 6, man_id := "m1", payload := "pay" }

-- C5 witness fixture: queue serving
def sQ := { s0 with requests := [reqStop] }
def sPend9 := { s0 with vc_reply_deadline := 9 }

def sSK : EngineState := { s0 with args := { s0.args with sk_calib := true } }


/-- C1: for every oracle, bus input and main-loop iteration, at most one
VehicleCommand VC_REQUEST is dispatched, and none at all while a vehicle
reply is already pending. -/
theorem C1_single_inflight_request (now : Int) (o : Oracle) (m : BusInput)
    (rd : Bool) (s : EngineState) (hnow : 0 ≤ now) :
    (vcReqCount (consume now o m s).2 ≤ 1 ∧
      (pendingReply s → vcReqCount (consume now o m s).2 = 0)) ∧
    (vcReqCount (onMainStep now o rd s).2 ≤ 1 ∧
      (pendingReply s → vcReqCount (onMainStep now o rd s).2 = 0)) :=
  ⟨consume_count now o m s hnow, onMainStep_count now o rd s⟩

/-- Witness for C1 at a concrete pending state and request. -/
theorem C1_witness :
    0 ≤ (4 : Int) ∧ pendingReply sPend9 ∧
    vcReqCount (consume 4 o0 (BusInput.planControl reqGet) sPend9).2 = 0 ∧
    vcReqCount (onMainStep 4 o0 true sPend9).2 = 0 :=
  ⟨by decide, by decide,
   (C1_single_inflight_request 4 o0 (BusInput.planControl reqGet) true sPend9
     (by decide)).1.2 (by decide),
   (C1_single_inflight_request 4 o0 (BusInput.planControl reqGet) true sPend9
     (by decide)).2.2 (by decide)⟩

/-- C2 (amended): a PC_LOAD carrying an explicit specification, issued outside
INITIALIZING/EXECUTING with a parseable plan, is accepted and stores the plan
bit-equal except for `source_entity`, which becomes the engine entity id; a
PC_GET while INITIALIZING/EXECUTING replies PC_SUCCESS carrying the stored
specification.  (A PC_GET outside those modes fails: see the counterexample.) -/
theorem C2_load_get_amended (now : Int) (o : Oracle) (pid : String)
    (sp : PlanSpecification) (s t : EngineState)
    (hs : ¬(s.pcs.state = PCSState.initializing) ∧
          ¬(s.pcs.state = PCSState.executing))
    (hpe : o.parseError = none)
    (hmode : t.pcs.state = PCSState.initializing ∨
             t.pcs.state = PCSState.executing) :
    (loadPlan now o pid (some (PCArg.spec sp)) false s).2.2 = true ∧
    (loadPlan now o pid (some (PCArg.spec sp)) false s).1.spec =
      { sp with source_entity := s.entId } ∧
    getPlan t =
      ({ t with
           pcs := { t.pcs with plan_progress := -1, plan_eta := 0 },
           reply := { t.reply with
                        type := PCType.pcSuccess, info := "OK",
                        arg := some (ReplyArg.spec t.spec),
                        plan_id := t.spec.plan_id } },
       [Output.replyOut { t.reply with
                            type := PCType.pcSuccess, info := "OK",
                            arg := some (ReplyArg.spec t.spec),
                            plan_id := t.spec.plan_id }]) := by
  refine ⟨?_, ?_, ?_⟩
  · simp only [loadPlan, parseArg, handleArgSpecification, parsePlan, hpe]
    split
    · rename_i hcond
      exact absurd hcond (by simp [hs.1, hs.2])
    · simp
  · simp only [loadPlan, parseArg, handleArgSpecification, parsePlan, hpe]
    split
    · rename_i hcond
      exact absurd hcond (by simp [hs.1, hs.2])
    · simp [onSuccess, answer]
  · simp only [getPlan]
    rw [if_neg (by rcases hmode with h | h <;> simp [h])]
    rfl

/-- Counterexample to C2 as stated: after an accepted PC_LOAD the engine is
READY, and a PC_GET there replies PC_FAILURE "no plan is running" instead of
returning the loaded plan. -/
theorem C2_counterexample :
    (loadPlan 4 o0 "p1" (some (PCArg.spec P1)) false s0).2.2 = true ∧
    stLoad.1.spec = { P1 with source_entity := 7 } ∧
    stLoad.1.pcs.state = PCSState.ready ∧
    (replyOuts (consume 5 o0 (BusInput.planControl reqGet) stLoad.1).2).map
      (fun r => (r.type, r.info)) = [(PCType.pcFailure, "no plan is running")] := by
  exact ⟨by decide, by decide, by decide, by decide⟩

/-- Witness for C2 (amended) at the concrete load fixture. -/
theorem C2_witness :
    (¬(s0.pcs.state = PCSState.initializing) ∧
     ¬(s0.pcs.state = PCSState.executing)) ∧
    o0.parseError = none ∧
    (sExec.pcs.state = PCSState.initializing ∨
     sExec.pcs.state = PCSState.executing) ∧
    ((loadPlan 4 o0 "p1" (some (PCArg.spec P1)) false s0).2.2 = true ∧
     (loadPlan 4 o0 "p1" (some (PCArg.spec P1)) false s0).1.spec =
       { P1 with source_entity := s0.entId } ∧
     getPlan sExec =
      ({ sExec with
           pcs := { sExec.pcs with plan_progress := -1, plan_eta := 0 },
           reply := { sExec.reply with
                        type := PCType.pcSuccess, info := "OK",
                        arg := some (ReplyArg.spec sExec.spec),
                        plan_id := sExec.spec.plan_id } },
       [Output.replyOut { sExec.reply with
                            type := PCType.pcSuccess, info := "OK",
                            arg := some (ReplyArg.spec sExec.spec),
                            plan_id := sExec.spec.plan_id }])) :=
  ⟨⟨by decide, by decide⟩, rfl, by right; decide,
   C2_load_get_amended 4 o0 "p1" P1 s0 sExec ⟨by decide, by decide⟩ rfl
     (by right; decide)⟩

/-- C3 (amended): when the reply deadline has passed with a request pending,
one main-loop iteration publishes READY, drains the queue, bumps the 16-bit
counter (always changing it) and clears the deadline — but emits no
PlanControl reply for the timed-out request. -/
theorem C3_reply_timeout (now : Int) (o : Oracle) (rd : Bool) (s : EngineState)
    (hpend : pendingReply s) (hexp : s.vc_reply_deadline ≤ now) :
    (onMainStep now o rd s).1.pcs.state = PCSState.ready ∧
    (onMainStep now o rd s).1.requests = [] ∧
    (onMainStep now o rd s).1.vreq_ctr = (s.vreq_ctr + 1) % 65536 ∧
    (onMainStep now o rd s).1.vreq_ctr ≠ s.vreq_ctr ∧
    (onMainStep now o rd s).1.vc_reply_deadline = -1 ∧
    replyOuts (onMainStep now o rd s).2 = [] := by
  obtain ⟨d1, r1, c1, st1, e1, v1, n1, p1⟩ := mainReport_facts o rd s
  obtain ⟨d2, r2, c2, n2, p2⟩ := mainVsTimeout_facts now (mainReport o rd s).1
  have hp2 : pendingReply (mainVsTimeout now (mainReport o rd s).1).1 := by
    simp only [pendingReply, d2, d1]
    exact hpend
  have h3 := (mainServeQueue_facts now o
    (mainVsTimeout now (mainReport o rd s).1).1).2.1 hp2
  have hd3 : (mainServeQueue now o
      (mainVsTimeout now (mainReport o rd s).1).1).1.vc_reply_deadline =
      s.vc_reply_deadline := by
    simp [h3, d2, d1]
  have hc3 : (mainServeQueue now o
      (mainVsTimeout now (mainReport o rd s).1).1).1.vreq_ctr = s.vreq_ctr := by
    simp [h3, c2, c1]
  obtain ⟨e1', e2', e3', e4'⟩ := mainReplyTimeout_expired now
    (mainServeQueue now o (mainVsTimeout now (mainReport o rd s).1).1).1
    (by rw [hd3]; exact hpend) (by rw [hd3]; exact hexp)
  have q3 : replyOuts (mainServeQueue now o
      (mainVsTimeout now (mainReport o rd s).1).1).2 = [] := by
    simp [h3]
  obtain ⟨n4, p4⟩ := mainReplyTimeout_facts now
    (mainServeQueue now o (mainVsTimeout now (mainReport o rd s).1).1).1
  refine ⟨?_, ?_, ?_, ?_, ?_, ?_⟩
  · simpa [onMainStep] using e1'
  · simpa [onMainStep] using e2'
  · simp only [onMainStep]
    rw [e3', hc3]
  · simp only [onMainStep]
    rw [e3', hc3]
    omega
  · simpa [onMainStep] using e4'
  · simp [onMainStep, replyOuts_append, p1, p2, q3, p4]

/-- Counterexample to C3 as stated: the timeout fires at the fixture state
(pending reply, expired deadline) and the queue is drained, yet no failure
reply is emitted to the operator. -/
theorem C3_counterexample :
    pendingReply sTO ∧ sTO.vc_reply_deadline ≤ 3 ∧ sTO.requests = [reqGet] ∧
    (onMainStep 3 o0 false sTO).1.pcs.state = PCSState.ready ∧
    (onMainStep 3 o0 false sTO).1.requests = [] ∧
    replyOuts (onMainStep 3 o0 false sTO).2 = [] := by
  exact ⟨by decide, by decide, by decide, by decide, by decide, by decide⟩

/-- Witness for C3 (amended) at the concrete expired fixture. -/
theorem C3_witness :
    pendingReply sTO ∧ sTO.vc_reply_deadline ≤ 3 ∧
    ((onMainStep 3 o0 false sTO).1.pcs.state = PCSState.ready ∧
     (onMainStep 3 o0 false sTO).1.requests = [] ∧
     (onMainStep 3 o0 false sTO).1.vreq_ctr = (sTO.vreq_ctr + 1) % 65536 ∧
     (onMainStep 3 o0 false sTO).1.vreq_ctr ≠ sTO.vreq_ctr ∧
     (onMainStep 3 o0 false sTO).1.vc_reply_deadline = -1 ∧
     replyOuts (onMainStep 3 o0 false sTO).2 = []) :=
  ⟨by decide, by decide, C3_reply_timeout 3 o0 false sTO (by decide) (by decide)⟩

/-- C4: a VehicleCommand whose destination system, destination entity or
request id does not match the in-flight request leaves the engine state
entirely unchanged and produces no output. -/
theorem C4_stale_reply_ignored (now : Int) (vc : VehicleCommand)
    (s : EngineState)
    (h : vc.dest ≠ s.sysId ∨ vc.dest_ent ≠ s.entId ∨
         s.vreq_ctr ≠ vc.request_id) :
    consumeVehicleCommand now vc s = (s, []) := by
  simp only [consumeVehicleCommand]
  repeat' split
  all_goals try rfl
  all_goals exact absurd h (by assumption)

/-- Witness for C4 at a concrete stale reply (old request id). -/
theorem C4_witness :
    (vcStale.dest ≠ sPend.sysId ∨ vcStale.dest_ent ≠ sPend.entId ∨
     sPend.vreq_ctr ≠ vcStale.request_id) ∧
    consumeVehicleCommand 3 vcStale sPend = (sPend, []) :=
  ⟨Or.inr (Or.inr (by decide)),
   C4_stale_reply_ignored 3 vcStale sPend (Or.inr (Or.inr (by decide)))⟩

/-- C5 (amended): a PlanControl request arriving while a vehicle reply is
pending is appended to the back of the queue with no other effect (FIFO), and
when the engine serves a non-empty queue, every PlanControl reply it emits
during that service carries the served (front) request id — but a served
request may emit no reply at all (see the counterexample). -/
theorem C5_fifo_amended (now : Int) (o : Oracle) (pc : PlanControl)
    (s : EngineState) (r : PlanControl) (rest : List PlanControl) :
    (pc.type = PCType.pcRequest → pendingReply s →
      consumePlanControl now o pc s = ({ s with requests := s.requests ++ [pc] }, [])) ∧
    (pc.type = PCType.pcRequest → ¬pendingReply s → s.requests = r :: rest →
      (consumePlanControl now o pc s).1.requests = rest ++ [pc] ∧
      ∀ p ∈ replyOuts (consumePlanControl now o pc s).2,
        p.request_id = r.request_id) := by
  constructor
  · intro hpc hp
    simp only [consumePlanControl]
    rw [if_neg (not_not_intro hpc), if_pos hp]
  · intro hpc hnp hq
    simp only [consumePlanControl]
    rw [if_neg (not_not_intro hpc), if_neg hnp, hq]
    constructor
    · show (processRequest now o r
        { s with requests := (r :: rest) ++ [pc] }).1.requests.tail = rest ++ [pc]
      rw [(processRequest_facts now o r { s with requests := (r :: rest) ++ [pc] }).1]
      rfl
    · intro p hp2
      exact (processRequest_facts now o r
        { s with requests := (r :: rest) ++ [pc] }).2.1 p hp2

/-- Counterexample to C5 as stated: a PC_LOAD whose memento names an unknown
resume maneuver is served from an idle engine, completes (nothing stays
queued), yet emits no PlanControl reply at all, so no reply for it precedes
the next request. -/
theorem C5_counterexample :
    (consume 4 oC5 (BusInput.planControl reqLoadMem) s0).1.requests = [] ∧
    replyOuts (consume 4 oC5 (BusInput.planControl reqLoadMem) s0).2 = [] := by
  exact ⟨by decide, by decide⟩

/-- Witness for C5 (amended): enqueue while pending, and FIFO service with
replies addressed to the front request. -/
theorem C5_witness :
    (reqGet.type = PCType.pcRequest ∧ pendingReply sPend9 ∧
     consumePlanControl 4 o0 reqGet sPend9 =
       ({ sPend9 with requests := [reqGet] }, [])) ∧
    (¬pendingReply sQ ∧ sQ.requests = [reqStop] ∧
     (consumePlanControl 4 o0 reqGet sQ).1.requests = [reqGet] ∧
     ∀ p ∈ replyOuts (consumePlanControl 4 o0 reqGet sQ).2,
       p.request_id = reqStop.request_id) :=
  ⟨⟨rfl, by decide,
    (C5_fifo_amended 4 o0 reqGet sPend9 reqStop []).1 rfl (by decide)⟩,
   ⟨by decide, rfl,
    (C5_fifo_amended 4 o0 reqGet sQ reqStop []).2 rfl (by decide) rfl⟩⟩

/-- C6 (amended): with no queued request and no pending reply, the main loop
publishes BLOCKED as soon as the vehicle-state silence reaches 2.5 s — the
boundary case of exactly 2.5 s does trigger BLOCKED — and leaves the
published state unchanged below 2.5 s. -/
theorem C6_vstate_timeout_boundary (now : Int) (o : Oracle) (rd : Bool)
    (s : EngineState) (hq : s.requests = []) (hnp : ¬pendingReply s)
    (hnorm : s.esta.esta = EStaKind.normal) :
    (c_vs_timeout ≤ now - s.last_vstate →
      (onMainStep now o rd s).1.pcs.state = PCSState.blocked) ∧
    (now - s.last_vstate < c_vs_timeout →
      (onMainStep now o rd s).1.pcs.state = s.pcs.state) := by
  obtain ⟨d1, r1, c1, st1, e1, v1, n1, p1⟩ := mainReport_facts o rd s
  obtain ⟨d2, r2, c2, n2, p2⟩ := mainVsTimeout_facts now (mainReport o rd s).1
  have hdlt : s.vc_reply_deadline < 0 := by
    simp only [pendingReply, not_le] at hnp
    exact hnp
  constructor
  · intro h
    have h2 := (mainVsTimeout_state now (mainReport o rd s).1).1
      ⟨by rw [e1]; exact hnorm, by rw [v1]; exact h⟩
    have h3 := (mainServeQueue_facts now o
      (mainVsTimeout now (mainReport o rd s).1).1).2.2 (by rw [r2, r1]; exact hq)
    have h4 : mainReplyTimeout now
        (mainVsTimeout now (mainReport o rd s).1).1 =
        ((mainVsTimeout now (mainReport o rd s).1).1, []) :=
      mainReplyTimeout_quiet now _ (Or.inl (by rw [d2, d1]; exact hdlt))
    simp only [onMainStep, h3, h4]
    exact h2
  · intro h
    have h2 := (mainVsTimeout_state now (mainReport o rd s).1).2
      (by
        rintro ⟨hc1, hc2⟩
        rw [v1] at hc2
        omega)
    have h3 := (mainServeQueue_facts now o (mainReport o rd s).1).2.2
      (by rw [r1]; exact hq)
    have h4 : mainReplyTimeout now (mainReport o rd s).1 =
        ((mainReport o rd s).1, []) :=
      mainReplyTimeout_quiet now _ (Or.inl (by rw [d1]; exact hdlt))
    simp only [onMainStep, h2, h3, h4]
    exact st1

/-- Counterexample to C6 as stated: a vehicle-state silence of exactly
2.5 s (5 half-second ticks) does transition the engine to BLOCKED. -/
theorem C6_counterexample :
    (5 : Int) - sVS.last_vstate = c_vs_timeout ∧
    sVS.pcs.state = PCSState.ready ∧
    (onMainStep 5 o0 false sVS).1.pcs.state = PCSState.blocked := by
  exact ⟨by decide, by decide, by decide⟩

/-- Witness for C6 (amended) at the boundary fixture. -/
theorem C6_witness :
    sVS.requests = [] ∧ ¬pendingReply sVS ∧
    sVS.esta.esta = EStaKind.normal ∧
    (c_vs_timeout ≤ (5 : Int) - sVS.last_vstate ∧
     (onMainStep 5 o0 false sVS).1.pcs.state = PCSState.blocked) ∧
    ((4 : Int) - sVS.last_vstate < c_vs_timeout ∧
     (onMainStep 4 o0 false sVS).1.pcs.state = sVS.pcs.state) :=
  ⟨rfl, by decide, rfl,
   ⟨by decide, (C6_vstate_timeout_boundary 5 o0 false sVS rfl (by decide) rfl).1
     (by decide)⟩,
   ⟨by decide, (C6_vstate_timeout_boundary 4 o0 false sVS rfl (by decide) rfl).2
     (by decide)⟩⟩

/-- C7 (amended): every matched VehicleCommand reply — IN_PROGRESS included —
clears the pending deadline, so the request no longer counts as pending. -/
theorem C7_matched_reply_clears_deadline (now : Int) (vc : VehicleCommand)
    (s : EngineState) (hty : ¬(vc.type = VCType.vcRequest))
    (hp : pendingReply s) (hd : vc.dest = s.sysId) (he : vc.dest_ent = s.entId)
    (hr : s.vreq_ctr = vc.request_id) :
    (consumeVehicleCommand now vc s).1.vc_reply_deadline = -1 ∧
    ¬pendingReply (consumeVehicleCommand now vc s).1 := by
  have key : (consumeVehicleCommand now vc s).1.vc_reply_deadline = -1 := by
    simp only [consumeVehicleCommand]
    rw [if_neg hty, if_neg (not_not_intro hp), if_neg (by simp [hd, he, hr])]
    split
    · split
      · simp
      · rfl
    · rfl
  exact ⟨key, by simp [pendingReply, key]⟩

/-- Counterexample to C7 as stated: a matched IN_PROGRESS reply does not
leave the deadline intact — it clears it. -/
theorem C7_counterexample :
    vcIP.type = VCType.vcInProgress ∧ sPend.vc_reply_deadline = 10 ∧
    (consumeVehicleCommand 3 vcIP sPend).1.vc_reply_deadline = -1 := by
  exact ⟨rfl, rfl, by decide⟩

/-- Witness for C7 (amended) at the concrete matched IN_PROGRESS reply. -/
theorem C7_witness :
    ¬(vcIP.type = VCType.vcRequest) ∧ pendingReply sPend ∧
    vcIP.dest = sPend.sysId ∧ vcIP.dest_ent = sPend.entId ∧
    sPend.vreq_ctr = vcIP.request_id ∧
    ((consumeVehicleCommand 3 vcIP sPend).1.vc_reply_deadline = -1 ∧
     ¬pendingReply (consumeVehicleCommand 3 vcIP sPend).1) :=
  ⟨by decide, by decide, rfl, rfl, rfl,
   C7_matched_reply_clears_deadline 3 vcIP sPend (by decide) (by decide)
     rfl rfl rfl⟩

/-- C8 (amended): a PC_STOP outside INITIALIZING/EXECUTING replies PC_FAILURE
"no plan is running, request ignored", and the only state change is in the
reply message and the published last_outcome/progress fields (last_outcome
becomes FAILURE, so the state is not entirely unchanged: see the
counterexample). -/
theorem C8_stop_in_ready (now : Int) (o : Oracle) (s : EngineState)
    (h : ¬(s.pcs.state = PCSState.initializing ∨
           s.pcs.state = PCSState.executing)) :
    (stopPlan now o false s).2.1 =
      [Output.replyOut { s.reply with
                           type := PCType.pcFailure,
                           info := "no plan is running, request ignored" }] ∧
    (stopPlan now o false s).1 =
      { s with
          pcs := { s.pcs with
                     last_outcome := Outcome.lpoFailure,
                     plan_progress := -1, plan_eta := 0 },
          reply := { s.reply with
                       type := PCType.pcFailure,
                       info := "no plan is running, request ignored",
                       plan_id := "" } } := by
  simp only [stopPlan]
  rw [if_neg h]
  exact ⟨rfl, rfl⟩

/-- Counterexample to C8 as stated: PC_STOP in READY is not a no-op — the
published last_outcome flips from SUCCESS to FAILURE and progress is reset. -/
theorem C8_counterexample :
    sRdy.pcs.state = PCSState.ready ∧
    sRdy.pcs.last_outcome = Outcome.lpoSuccess ∧
    sRdy.pcs.plan_progress = 50 ∧
    (consume 4 o0 (BusInput.planControl reqStop) sRdy).1.pcs.last_outcome =
      Outcome.lpoFailure ∧
    (consume 4 o0 (BusInput.planControl reqStop) sRdy).1.pcs.plan_progress = -1 ∧
    (replyOuts (consume 4 o0 (BusInput.planControl reqStop) sRdy).2).map
      (fun r => (r.type, r.info)) =
      [(PCType.pcFailure, "no plan is running, request ignored")] := by
  exact ⟨by decide, by decide, by decide, by decide, by decide, by decide⟩

/-- Witness for C8 (amended) at the READY fixture. -/
theorem C8_witness :
    ¬(s0.pcs.state = PCSState.initializing ∨
      s0.pcs.state = PCSState.executing) ∧
    ((stopPlan 4 o0 false s0).2.1 =
      [Output.replyOut { s0.reply with
                           type := PCType.pcFailure,
                           info := "no plan is running, request ignored" }] ∧
     (stopPlan 4 o0 false s0).1 =
      { s0 with
          pcs := { s0.pcs with
                     last_outcome := Outcome.lpoFailure,
                     plan_progress := -1, plan_eta := 0 },
          reply := { s0.reply with
                       type := PCType.pcFailure,
                       info := "no plan is running, request ignored",
                       plan_id := "" } }) :=
  ⟨by decide, C8_stop_in_ready 4 o0 s0 (by decide)⟩

/-- C9: the memento handler does discard a Memento with an unknown plan_ref
(state and outputs untouched), but when a PlanMemento is produced the code
persists the RAW Memento message, not the produced PlanMemento — the
conversion result is discarded. -/
theorem C9_memento_bug :
    processMemento sMH.mh memK =
      some { id := "memid", plan_id := "p2", maneuver_id := "m1",
             memento := "pay" } ∧
    (consumeMemento memK sMH).2 =
      [Output.dbOut DBKind.dbMemento "memid" (DBPayload.rawMemento memK)] ∧
    consumeMemento memU sMH = (sMH, []) := by
  exact ⟨by decide, by decide, by decide⟩

/-- C10: an EstimatedState from another system leaves the engine unchanged;
an own-system one replaces the stored navigation state, which supplies the
position of the station-keeping calibration filler. -/
theorem C10_estimated_state_frame (now : Int) (o : Oracle)
    (m : EstimatedState) (s : EngineState) :
    (m.src ≠ s.sysId → consumeEstimatedState m s = (s, [])) ∧
    (m.src = s.sysId → consumeEstimatedState m s = ({ s with state_es := m }, [])) ∧
    (s.args.sk_calib = true → ¬(s.pcs.state = PCSState.blocked) →
      vcManeuvers (startCalibration now o s).2.1 =
        [some { imcId := 461, name := "StationKeeping", plan_ref := 0,
                memento := "", lat := s.state_es.lat, lon := s.state_es.lon,
                radius := s.args.sk_radius, speed := s.args.sk_rpm,
                duration := 0 }]) := by
  refine ⟨fun h => ?_, fun h => ?_, fun hsk hnb => ?_⟩
  · simp only [consumeEstimatedState]
    rw [if_pos h]
  · simp only [consumeEstimatedState]
    rw [if_neg (not_not_intro h)]
  · simp only [startCalibration]
    rw [if_neg hnb, if_pos hsk]
    simp [vehicleRequest, vcManeuvers]

/-- Witness for C10 at a foreign-system message and the station-keeping
configuration. -/
theorem C10_witness :
    ({ src := 2, lat := 8, lon := 9 } : EstimatedState).src ≠ s0.sysId ∧
    consumeEstimatedState { src := 2, lat := 8, lon := 9 } s0 = (s0, []) ∧
    sSK.args.sk_calib = true ∧ ¬(sSK.pcs.state = PCSState.blocked) ∧
    vcManeuvers (startCalibration 4 o0 sSK).2.1 =
      [some { imcId := 461, name := "StationKeeping", plan_ref := 0,
              memento := "", lat := 3, lon := 4, radius := 20, speed := 1600,
              duration := 0 }] :=
  ⟨by decide,
   (C10_estimated_state_frame 4 o0 { src := 2, lat := 8, lon := 9 } s0).1
     (by decide),
   rfl, by decide,
   by
     have := (C10_estimated_state_frame 4 o0
       { src := 2, lat := 8, lon := 9 } sSK).2.2 rfl (by decide)
     simpa using this⟩

end PlanEngine


